import Mathlib

/-!
Verification development for the sql_data_analyst_helper backend.

This file models, in Lean, the core of the repository:

* `server/vectorDB/postgres.py` — the Postgres-backed vector store
  (`_cosine_similarity`, `_get_similar_sql_queries`,
  `_get_similar_ddl_statements`, `add_ddl`, `add_question_sql`,
  `get_similar_question_sql`).
* `server/vectorDB/chroma.py` — the ChromaDB-backed vector store
  (`add_ddl`, `add_documentation`, `add_question_sql`,
  `get_similar_question_sql`, `migrate_embeddings`).
* `server/vectorDB/utils.py` — `deterministic_uuid` (SHA-256 based).
* `server/services/chat_service.py` and
  `server/services/generic/sql_generator.py` — the generation and
  feedback state machine over a chat's query history.

Modelling conventions:

* Python floats are modelled by exact arithmetic: an embedding is a
  `List ℚ`.  The value computed by `_cosine_similarity`, namely
  `dot(a,b) / (|a| * |b|)`, is represented symbolically by a `SimScore`
  carrying the (rational) dot product and the (rational) product of the
  squared norms; the represented real value is `dot / sqrt nsq`.  This
  representation is exact: no square root ever has to be approximated.
  When the denominator is zero the division is numpy's `0.0/0.0`, which
  yields NaN (a RuntimeWarning, not an exception, so the
  `except` branch of `_cosine_similarity` does not fire); the `SimScore`
  with `nsq = 0` records exactly this NaN outcome.
* Python's `list.sort(key=..., reverse=True)` is a stable descending
  sort.  A stable sort is uniquely determined by the comparison on keys
  and the input order, so it is modelled by `List.mergeSort` (stable by
  `List.mergeSort_enum`).  The model is faithful whenever no NaN key is
  present (CPython's sort is unspecified on NaN keys); theorems about
  the ranking therefore carry a no-NaN hypothesis.
* Database-generated ids (`uuid.uuid4()` column defaults in
  `models/vectorDbModels.py`) are modelled by a fresh-id counter in the
  store state, assuming (as the code does) that generated uuids never
  collide.
* Exceptions are modelled by `Option`/`Except` return values; functions
  that swallow exceptions and return a default (`[]`, `None`, `0.0`)
  are modelled by returning that default on the corresponding branch.
-/

/-! ## Exact vector arithmetic (models numpy operations on embeddings) -/

/-- Dot product of two rational vectors; models `np.dot(vec1, vec2)` for
equal-length 1-D arrays. -/
def dotQ (a b : List ℚ) : ℚ := (List.zipWith (· * ·) a b).sum

/-- Squared Euclidean norm: `np.linalg.norm(v) ** 2` as an exact rational. -/
def normSq (v : List ℚ) : ℚ := dotQ v v

/-- The value computed by `PostgresDB_VectorStore._cosine_similarity`,
represented exactly.  `dot` is the rational dot product and `nsq` the
rational product of the two squared norms; the represented float is
`dot / Real.sqrt nsq`.  `nsq = 0` encodes numpy's `0.0 / 0.0 = NaN`
(the dot product is necessarily `0` whenever a norm is `0`). -/
structure SimScore where
  dot : ℚ
  nsq : ℚ
deriving DecidableEq, Repr

/-- The score is numpy NaN: the denominator `|a| * |b|` was `0.0`, so the
division was `0.0 / 0.0`.  numpy emits a RuntimeWarning and produces NaN
rather than raising, so the `except` clause of `_cosine_similarity`
(which would return `0.0`) never fires on this input. -/
def SimScore.isNaN (s : SimScore) : Bool := s.nsq == 0

/-- Model of `PostgresDB_VectorStore._cosine_similarity(vec1, vec2)`:
`np.dot(vec1, vec2) / (np.linalg.norm(vec1) * np.linalg.norm(vec2))`.
If the lengths differ, `np.dot` raises and the `except` branch returns
the plain float `0.0`, represented as `⟨0, 1⟩` (value `0 / sqrt 1 = 0`). -/
def cosine_similarity (vec1 vec2 : List ℚ) : SimScore :=
  if vec1.length = vec2.length then ⟨dotQ vec1 vec2, normSq vec1 * normSq vec2⟩
  else ⟨0, 1⟩

/-- Comparison of two represented similarity values
(`s.dot / sqrt s.nsq ≤ t.dot / sqrt t.nsq`), decided exactly by sign
analysis and cross-multiplied squares.  On scores with `nsq = 0` it
extends the order by `sign dot · ∞` (and treats the NaN `⟨0, 0⟩` like
`0`); ranking theorems never rely on this extension — they assume no
NaN is present. -/
def simLE (s t : SimScore) : Bool :=
  if 0 < s.dot then
    decide (0 < t.dot) && decide (s.dot ^ 2 * t.nsq ≤ t.dot ^ 2 * s.nsq)
  else if t.dot < 0 then
    decide (s.dot < 0) && decide (t.dot ^ 2 * s.nsq ≤ s.dot ^ 2 * t.nsq)
  else
    true

/-- Sort key used to model `similarities.sort(key=lambda x: x[0], reverse=True)`:
`x` may stay before `y` exactly when `y`'s score is `≤` `x`'s score. -/
def descBySim {α : Type} (x y : SimScore × α) : Bool := simLE y.1 x.1

/-! ## Postgres vector store records (`models/vectorDbModels.py`)

Row ids are `uuid.uuid4()` column defaults; they are modelled by natural
numbers handed out by a fresh-id counter (uuids are assumed collision
free).  Project ids (uuids of `projects`) are modelled by naturals. -/

structure SQLQueryRec where
  id : Nat
  projectId : Nat
  question : String
  sql : String
  embedding : List ℚ
deriving DecidableEq, Repr

structure DDLRec where
  id : Nat
  projectId : Nat
  ddl : String
  embedding : List ℚ
deriving DecidableEq, Repr

structure DocRec where
  id : Nat
  projectId : Nat
  documentation : String
  embedding : List ℚ
deriving DecidableEq, Repr

/-- The result dict built by `_get_similar_sql_queries`:
`{"question": ..., "sql": ..., "project_id": ...}`. -/
structure SqlDoc where
  question : String
  sql : String
  projectId : Nat
deriving DecidableEq, Repr

def SQLQueryRec.payload (r : SQLQueryRec) : SqlDoc := ⟨r.question, r.sql, r.projectId⟩

/-- Sort-and-truncate tail shared verbatim by `_get_similar_sql_queries`,
`_get_similar_ddl_statements` and `_get_similar_documentation`:
`similarities.sort(key=lambda x: x[0], reverse=True)` followed by
`[doc for _, doc in similarities[:n_results]]`.  A stable descending
sort is modelled by `List.mergeSort` with `descBySim`. -/
def rankTop {α : Type} (scored : List (SimScore × α)) (n : Nat) : List α :=
  ((scored.mergeSort descBySim).take n).map (·.2)

/-- The `similarities` list built by `_get_similar_sql_queries`: one
`(similarity, doc)` pair per row of the project, in row order. -/
def scoredSqlQueries (table : List SQLQueryRec) (projectId : Nat)
    (queryEmbedding : List ℚ) : List (SimScore × SqlDoc) :=
  (table.filter (fun r => r.projectId == projectId)).map
    (fun r => (cosine_similarity queryEmbedding r.embedding, r.payload))

/-- Model of `PostgresDB_VectorStore._get_similar_sql_queries`. -/
def get_similar_sql_queries (table : List SQLQueryRec) (projectId : Nat)
    (queryEmbedding : List ℚ) (nResults : Nat) : List SqlDoc :=
  if table.filter (fun r => r.projectId == projectId) = [] then []
  else rankTop (scoredSqlQueries table projectId queryEmbedding) nResults

/-- The `similarities` list built by `_get_similar_ddl_statements`. -/
def scoredDdlStatements (table : List DDLRec) (projectId : Nat)
    (queryEmbedding : List ℚ) : List (SimScore × String) :=
  (table.filter (fun r => r.projectId == projectId)).map
    (fun r => (cosine_similarity queryEmbedding r.embedding, r.ddl))

/-- Model of `PostgresDB_VectorStore._get_similar_ddl_statements`. -/
def get_similar_ddl_statements (table : List DDLRec) (projectId : Nat)
    (queryEmbedding : List ℚ) (nResults : Nat) : List String :=
  if table.filter (fun r => r.projectId == projectId) = [] then []
  else rankTop (scoredDdlStatements table projectId queryEmbedding) nResults

/-! ## Specification of the stable descending ranking

`lexRanked scored` is the mathematical object the spec describes:
the scored records, indexed by insertion position, ordered by strictly
descending similarity with ties broken by ascending insertion index.
`List.mergeSort_enum` (stability of `mergeSort`) connects it to the
stable sort performed by the code. -/

def lexRanked {α : Type} (scored : List (SimScore × α)) : List (Nat × (SimScore × α)) :=
  (scored.enum).mergeSort (List.enumLE descBySim)

/-! ## Postgres store state and operations (`vectorDB/postgres.py`)

The embedding provider is a parameter `emb : String → List ℚ`;
`PostgresDB_VectorStore.generate_embedding` catches provider exceptions
and returns `[]`, so a failed or empty embedding is exactly `emb s = []`. -/

structure PgState where
  projects : List Nat
  sqlQueries : List SQLQueryRec
  ddlStatements : List DDLRec
  documentationItems : List DocRec
  nextId : Nat
deriving DecidableEq, Repr

/-- Model of `PostgresDB_VectorStore.add_ddl`: requires a project id,
checks the project exists, embeds the DDL (aborting with `None`, storing
nothing, if the embedding comes back empty), then inserts a fresh row
whose id is a new `uuid.uuid4()` (fresh counter value) and returns it. -/
def pg_add_ddl (emb : String → List ℚ) (ddl : String) (projectId : Option Nat)
    (st : PgState) : Option Nat × PgState :=
  match projectId with
  | none => (none, st)
  | some p =>
    if p ∈ st.projects then
      let e := emb ddl
      if e = [] then (none, st)
      else (some st.nextId,
        { st with
          ddlStatements := st.ddlStatements ++ [⟨st.nextId, p, ddl, e⟩],
          nextId := st.nextId + 1 })
    else (none, st)

/-- Model of `PostgresDB_VectorStore.add_question_sql`; the embedded text
is `f"{question} {sql}"`. -/
def pg_add_question_sql (emb : String → List ℚ) (question sql : String)
    (projectId : Option Nat) (st : PgState) : Option Nat × PgState :=
  match projectId with
  | none => (none, st)
  | some p =>
    if p ∈ st.projects then
      let e := emb (question ++ " " ++ sql)
      if e = [] then (none, st)
      else (some st.nextId,
        { st with
          sqlQueries := st.sqlQueries ++ [⟨st.nextId, p, question, sql, e⟩],
          nextId := st.nextId + 1 })
    else (none, st)

/-- Model of `PostgresDB_VectorStore.get_similar_question_sql`: a missing
project id raises (caught, `[]`), a failed/empty query embedding returns
the plain empty list, otherwise `_get_similar_sql_queries` runs. -/
def pg_get_similar_question_sql (emb : String → List ℚ) (st : PgState)
    (question : String) (projectId : Option Nat) (nResultsSql : Nat) : List SqlDoc :=
  match projectId with
  | none => []
  | some p =>
    let qe := emb question
    if qe = [] then [] else get_similar_sql_queries st.sqlQueries p qe nResultsSql

/-! ## SHA-256 (models `hashlib.sha256` used by `vectorDB/utils.py`)

A full executable SHA-256 over byte lists, with 32-bit words as `Nat`
reduced mod `2 ^ 32`. -/

/-- Trial-division primality test, adequate for the small primes that
seed the SHA-256 constants. -/
def isPrimeNat (n : Nat) : Bool :=
  decide (2 ≤ n) && (((List.range n).drop 2).all (fun d => n % d != 0))

/-- The first `k` prime numbers (311, the 64th prime, is below 400). -/
def firstPrimes (k : Nat) : List Nat :=
  ((List.range 400).filter isPrimeNat).take k

/-- Integer cube root by binary search (largest `m` with `m^3 ≤ n`). -/
def cubeRoot (n : Nat) : Nat :=
  ((List.range 200).foldl
    (fun (p : Nat × Nat) _ =>
      let mid := (p.1 + p.2) / 2
      if mid ≤ p.1 then p
      else if mid * mid * mid ≤ n then (mid, p.2) else (p.1, mid))
    (0, n + 1)).1

/-- The SHA-256 round constants: the first 32 bits of the fractional
parts of the cube roots of the first 64 primes. -/
def sha256K : List Nat :=
  (firstPrimes 64).map (fun p => cubeRoot (p * 2 ^ 96) % 2 ^ 32)

/-- The SHA-256 initial hash value: the first 32 bits of the fractional
parts of the square roots of the first 8 primes. -/
def sha256H0 : List Nat :=
  (firstPrimes 8).map (fun p => Nat.sqrt (p * 2 ^ 64) % 2 ^ 32)

def rotr32 (n x : Nat) : Nat := ((x >>> n) ||| (x <<< (32 - n))) % 4294967296

def add32 (a b : Nat) : Nat := (a + b) % 4294967296

def xor3 (a b c : Nat) : Nat := Nat.xor (Nat.xor a b) c

def bigSigma0 (x : Nat) : Nat := xor3 (rotr32 2 x) (rotr32 13 x) (rotr32 22 x)

def bigSigma1 (x : Nat) : Nat := xor3 (rotr32 6 x) (rotr32 11 x) (rotr32 25 x)

def smallSigma0 (x : Nat) : Nat := xor3 (rotr32 7 x) (rotr32 18 x) (x >>> 3)

def smallSigma1 (x : Nat) : Nat := xor3 (rotr32 17 x) (rotr32 19 x) (x >>> 10)

def chF (e f g : Nat) : Nat := Nat.xor (Nat.land e f) (Nat.land (Nat.xor e 0xffffffff) g)

def majF (a b c : Nat) : Nat := xor3 (Nat.land a b) (Nat.land a c) (Nat.land b c)

/-- UTF-8 encoding of a character (models Python `str.encode()`). -/
def utf8Bytes (c : Char) : List Nat :=
  let n := c.toNat
  if n < 0x80 then [n]
  else if n < 0x800 then [0xC0 ||| (n >>> 6), 0x80 ||| (n &&& 0x3F)]
  else if n < 0x10000 then
    [0xE0 ||| (n >>> 12), 0x80 ||| ((n >>> 6) &&& 0x3F), 0x80 ||| (n &&& 0x3F)]
  else
    [0xF0 ||| (n >>> 18), 0x80 ||| ((n >>> 12) &&& 0x3F), 0x80 ||| ((n >>> 6) &&& 0x3F),
     0x80 ||| (n &&& 0x3F)]

def strBytes (s : String) : List Nat := (s.data.map utf8Bytes).flatten

def sha256Pad (msg : List Nat) : List Nat :=
  let L := msg.length
  let z := (120 - ((L + 1) % 64)) % 64
  msg ++ [0x80] ++ List.replicate z 0 ++
    ((List.range 8).map (fun i => ((8 * L) >>> (8 * (7 - i))) % 256))

def wordOfBytes (bs : List Nat) : Nat := bs.foldl (fun acc b => acc * 256 + b) 0

def blockWords (block : List Nat) : List Nat :=
  (List.range 16).map (fun i => wordOfBytes ((block.drop (4 * i)).take 4))

def chunks64 : List Nat → List (List Nat)
  | [] => []
  | b :: rest => ((b :: rest).take 64) :: chunks64 ((b :: rest).drop 64)
termination_by l => l.length
decreasing_by simp; omega

def extendWords (w : List Nat) : List Nat :=
  (List.range 48).foldl
    (fun w _ =>
      let len := w.length
      w ++ [add32 (add32 (smallSigma1 (w.getD (len - 2) 0)) (w.getD (len - 7) 0))
              (add32 (smallSigma0 (w.getD (len - 15) 0)) (w.getD (len - 16) 0))])
    w

def sha256Round (st : List Nat) (kw : Nat × Nat) : List Nat :=
  match st with
  | [a, b, c, d, e, f, g, h] =>
    let t1 := add32 (add32 (add32 h (bigSigma1 e)) (add32 (chF e f g) kw.1)) kw.2
    let t2 := add32 (bigSigma0 a) (majF a b c)
    [add32 t1 t2, a, b, c, add32 d t1, e, f, g]
  | _ => st

def sha256Block (st : List Nat) (block : List Nat) : List Nat :=
  let w := extendWords (blockWords block)
  let st' := (List.zip sha256K w).foldl sha256Round st
  List.zipWith add32 st st'

def sha256Words (msg : List Nat) : List Nat :=
  (chunks64 (sha256Pad msg)).foldl sha256Block sha256H0

def hexDigit (n : Nat) : Char := if n < 10 then Char.ofNat (48 + n) else Char.ofNat (87 + n)

def wordHex (w : Nat) : String :=
  String.mk ((List.range 8).map (fun i => hexDigit ((w >>> (4 * (7 - i))) % 16)))

/-- `hashlib.sha256(data).hexdigest()` for a byte list. -/
def sha256Hex (msg : List Nat) : String := String.join ((sha256Words msg).map wordHex)

/-- Model of `vectorDB/utils.py deterministic_uuid`: empty input raises
`ValueError` (modelled as `none`); otherwise the first 32 hex characters
of the SHA-256 of the UTF-8 encoding of the input. -/
def deterministic_uuid (data : String) : Option String :=
  if data = "" then none else some ((sha256Hex (strBytes data)).take 32)


/-! ## ChromaDB vector store (`vectorDB/chroma.py`)

Chroma-specific external behavior used by the model:

* `collection.add` with an id that already exists in the collection logs
  an "Insert of existing embedding ID" warning and stores nothing (the
  existing record is kept unchanged); `chromaAddEntry` models this
  duplicate-id skip.
* `collection.query(..., where={"project_id": p})` ranks the entries
  whose metadata matches the filter by increasing distance between their
  embedding and the query embedding and returns up to `n_results` of
  them; the distance ranking is modelled by a stable ascending sort on
  exact squared Euclidean distance.
* The documents stored in the `sql` collection are the JSON strings
  produced by `json.dumps({"question": ..., "sql": ..., "project_id": ...})`;
  `ChromaSqlEntry` keeps the three fields of that document (JSON
  round-tripping through `_extract_documents` is lossless) next to the
  metadata `project_id` used by the `where` filter. -/

structure ChromaEntry where
  id : String
  document : String
  embedding : List ℚ
  projectId : Option String
deriving DecidableEq, Repr

/-- `collection.add`: a duplicate id is skipped with a warning. -/
def chromaAddEntry (col : List ChromaEntry) (e : ChromaEntry) : List ChromaEntry :=
  if col.any (fun x => x.id == e.id) then col else col ++ [e]

/-- Model of `ChromaDB_VectorStore.add_ddl`: the record id is
`deterministic_uuid(ddl) + "-ddl"` — computed from the DDL text alone,
never from `project_id`. -/
def chroma_add_ddl (emb : String → List ℚ) (ddl : String) (projectId : Option String)
    (col : List ChromaEntry) : Option String × List ChromaEntry :=
  match deterministic_uuid ddl with
  | none => (none, col)
  | some h =>
    let id := h ++ "-ddl"
    (some id, chromaAddEntry col ⟨id, ddl, emb ddl, projectId⟩)

/-- Model of `ChromaDB_VectorStore.add_documentation`: the record id is
`deterministic_uuid(documentation) + "-doc"`. -/
def chroma_add_documentation (emb : String → List ℚ) (documentation : String)
    (projectId : Option String) (col : List ChromaEntry) : Option String × List ChromaEntry :=
  match deterministic_uuid documentation with
  | none => (none, col)
  | some h =>
    let id := h ++ "-doc"
    (some id, chromaAddEntry col ⟨id, documentation, emb documentation, projectId⟩)

def hex2 (n : Nat) : String := String.mk [hexDigit (n / 16 % 16), hexDigit (n % 16)]

/-- JSON string-escaping of one character, as `json.dumps` with
`ensure_ascii=False` performs it. -/
def jsonEscapeChar (c : Char) : String :=
  if c = '"' then "\\\""
  else if c = '\\' then "\\\\"
  else if c = '\n' then "\\n"
  else if c = '\t' then "\\t"
  else if c = '\r' then "\\r"
  else if c.toNat = 8 then "\\b"
  else if c.toNat = 12 then "\\f"
  else if c.toNat < 32 then "\\u00" ++ hex2 c.toNat
  else String.singleton c

def jsonString (s : String) : String :=
  "\"" ++ String.join (s.data.map jsonEscapeChar) ++ "\""

def jsonOptString : Option String → String
  | none => "null"
  | some s => jsonString s

/-- The exact text of
`json.dumps({"question": question, "sql": sql, "project_id": project_id}, ensure_ascii=False)`. -/
def questionSqlJson (question sql : String) (projectId : Option String) : String :=
  "\x7b\"question\": " ++ jsonString question ++ ", \"sql\": " ++ jsonString sql ++
    ", \"project_id\": " ++ jsonOptString projectId ++ "\x7d"

structure ChromaSqlEntry where
  id : String
  question : String
  sql : String
  docProjectId : Option String
  embedding : List ℚ
  metaProjectId : Option String
deriving DecidableEq, Repr

/-- `collection.add` on the sql collection: a duplicate id is skipped
with a warning (same chroma behavior as `chromaAddEntry`). -/
def chromaAddSqlEntry (col : List ChromaSqlEntry) (e : ChromaSqlEntry) :
    List ChromaSqlEntry :=
  if col.any (fun x => x.id == e.id) then col else col ++ [e]

/-- Model of `ChromaDB_VectorStore.add_question_sql`: the id is
`deterministic_uuid(question_sql_json) + "-sql"` where the JSON includes
the project id; the document and the metadata both record the project. -/
def chroma_add_question_sql (emb : String → List ℚ) (question sql : String)
    (projectId : Option String) (col : List ChromaSqlEntry) :
    Option String × List ChromaSqlEntry :=
  let j := questionSqlJson question sql projectId
  match deterministic_uuid j with
  | none => (none, col)
  | some h =>
    let id := h ++ "-sql"
    (some id, chromaAddSqlEntry col ⟨id, question, sql, projectId, emb j, projectId⟩)

/-- Exact squared Euclidean distance (chroma's default `l2` metric,
squared — the ranking it induces is the same). -/
def distSq (a b : List ℚ) : ℚ := (List.zipWith (fun x y => (x - y) * (x - y)) a b).sum

/-- The parsed result documents of `get_similar_question_sql`
(`_extract_documents` does `json.loads` on each stored document). -/
structure SqlDocC where
  question : String
  sql : String
  projectId : Option String
deriving DecidableEq, Repr

/-- Model of `ChromaDB_VectorStore.get_similar_question_sql` with a
`where={"project_id": p}` filter applied when a project id is given. -/
def chroma_get_similar_question_sql (emb : String → List ℚ) (col : List ChromaSqlEntry)
    (question : String) (nResults : Nat) (wherePid : Option String) : List SqlDocC :=
  let filtered : List ChromaSqlEntry :=
    match wherePid with
    | some p => col.filter (fun e => e.metaProjectId == some p)
    | none => col
  let qe := emb question
  let ranked : List ChromaSqlEntry :=
    filtered.mergeSort (fun x y => decide (distSq qe x.embedding ≤ distSq qe y.embedding))
  (ranked.take nResults).map (fun e => ⟨e.question, e.sql, e.docProjectId⟩)

/-! ### Embedding migration (`ChromaDB_VectorStore.migrate_embeddings`)

The new provider is `newEmb : String → Option (List ℚ)`; `none` models
`generate_embedding` raising for that document.  `migrate_embeddings`
backs up each collection, deletes and recreates it empty, then re-adds
every backed-up record with a freshly generated embedding.  Each
category's restore loop sits inside one `try`: the first failing record
aborts the remaining records of that category, and the category's count
is then not added to `restored_count`.  The function returns `True`
regardless. -/

structure ChromaStore where
  sql : List ChromaEntry
  ddl : List ChromaEntry
  documentation : List ChromaEntry
deriving DecidableEq, Repr

/-- One category's restore loop: re-embed and re-add records in order
until the first embedding failure (which aborts the loop, losing the
failing record and every later one). -/
def restoreCat (newEmb : String → Option (List ℚ)) (backup acc : List ChromaEntry) :
    List ChromaEntry × Bool :=
  match backup with
  | [] => (acc, true)
  | e :: rest =>
    match newEmb e.document with
    | none => (acc, false)
    | some v => restoreCat newEmb rest (chromaAddEntry acc { e with embedding := v })

/-- Model of `ChromaDB_VectorStore.migrate_embeddings`: returns the new
store, the printed `restored_count`, and the boolean result (always
`true` — inner failures are caught per category). -/
def migrate_embeddings (newEmb : String → Option (List ℚ)) (st : ChromaStore) :
    ChromaStore × Nat × Bool :=
  let rs := restoreCat newEmb st.sql []
  let rd := restoreCat newEmb st.ddl []
  let rdoc := restoreCat newEmb st.documentation []
  (⟨rs.1, rd.1, rdoc.1⟩,
   (if rs.2 then st.sql.length else 0) + (if rd.2 then st.ddl.length else 0) +
     (if rdoc.2 then st.documentation.length else 0),
   true)

/-! ## Chat service and SQL generator
(`services/chat_service.py`, `services/generic/sql_generator.py`)

External collaborators appear as parameters: `llm` is the Bedrock text
generation (prompt to response text), `retr` carries the three vector
store lookups for the question (they swallow their own errors and
return lists), `ts` the `datetime.utcnow().isoformat()` timestamp.

A load-bearing detail of `sql_generator.py`: `bedrock.generate_text`
(`services/generic/llm.py`) returns the response *text*, a plain `str`.
After `generated_sql = response.strip()`, both `generate_sql_query` and
`regenerate_sql_query` evaluate `response.usage` inside an f-string
(a leftover from the commented-out OpenAI client, whose response object
did have `.usage`).  A `str` has no attribute `usage`, so this raises
`AttributeError` on every successful LLM call; the surrounding `except`
re-raises it as `Exception("Failed to (re)generate SQL: ...")`, and the
`return generated_sql` line below it is unreachable.
`strResponseHasUsage = false` records this fact in the model. -/

structure QueryAttempt where
  text : String
  sql : String
  isCorrect : Option Bool
  timestamp : String
deriving DecidableEq, Repr

structure ChatState where
  history : List QueryAttempt
  feedbackEnabled : Option Bool
deriving DecidableEq, Repr

inductive CallEvent where
  | relatedDocumentation
  | relatedDdl
  | similarQuestionSql
  | llmGenerate
deriving DecidableEq, Repr

/-- Python `str.strip()` truthiness test as used in the `if not
query_text.strip()` guards: the text is empty or all whitespace. -/
def isBlank (s : String) : Bool := s.data.all Char.isWhitespace

/-- Python `str(item.get("is_correct", True))`. -/
def boolStr : Option Bool → String
  | some false => "False"
  | _ => "True"

def samplesSection (samples : List (String × String)) : String :=
  if samples = [] then ""
  else "Sample Queries:\n" ++
    String.join (samples.map (fun p => "Text: " ++ p.1 ++ "\nSQL: " ++ p.2 ++ "\n\n"))

def historySection (history : List QueryAttempt) : String :=
  if history = [] then ""
  else "Previous queries in this conversation:\n" ++
    String.join (history.map (fun it =>
      "Text: " ++ it.text ++ "\nSQL: " ++ it.sql ++ "\nCorrect: " ++ boolStr it.isCorrect ++
        "\n\n"))

/-- The `context` string assembled by `generate_sql_query`. -/
def generateContext (schemaText docText : String) (samples : List (String × String))
    (history : List QueryAttempt) : String :=
  (if isBlank schemaText then "" else "Database Schema:\n" ++ schemaText ++ "\n\n") ++
  (if isBlank docText then "" else "Documentation:\n" ++ docText ++ "\n\n") ++
  samplesSection samples ++ historySection history

/-- Whether the text returned by `bedrock.generate_text` (a `str`) has a
`usage` attribute: it does not, so the f-string logging line after the
LLM call always raises AttributeError. -/
def strResponseHasUsage : Bool := false

/-- Model of `sql_generator.generate_sql_query`.  Returns the outcome and
the list of external calls performed.  The empty-text check happens after
prompt construction but before the LLM call; on a successful LLM call the
`response.usage` access then raises, so the `.ok` branch is unreachable
while `strResponseHasUsage = false`. -/
def generate_sql_query (llm : String → String) (queryText schemaText docText : String)
    (samples : List (String × String)) (history : List QueryAttempt) :
    Except String String × List CallEvent :=
  if isBlank queryText then (.error "Query text cannot be empty", [])
  else
    let prompt := generateContext schemaText docText samples history ++
      "\nGenerate SQL for: " ++ queryText ++ "\nSQL:"
    let generatedSql := (llm prompt).trim
    if strResponseHasUsage then (.ok generatedSql, [.llmGenerate])
    else (.error "Failed to generate SQL: str object has no attribute usage", [.llmGenerate])

/-- `regenerate_sql_query`'s filter of previous incorrect attempts:
same question text and `is_correct` explicitly `False`. -/
def incorrectAttempts (queryText : String) (history : List QueryAttempt) :
    List QueryAttempt :=
  history.filter (fun q => q.text == queryText && q.isCorrect == some false)

def incorrectSection (queryText : String) (history : List QueryAttempt) : String :=
  let ia := incorrectAttempts queryText history
  if ia = [] then ""
  else "Previous incorrect attempts:\n" ++
    String.join (ia.map (fun a => "Incorrect SQL: " ++ a.sql ++ "\n"))

/-- The `context` string assembled by `regenerate_sql_query`. -/
def regenerateContext (schemaText docText : String) (samples : List (String × String))
    (queryText : String) (history : List QueryAttempt) : String :=
  (if isBlank schemaText then "" else "Database Schema:\n" ++ schemaText ++ "\n\n") ++
  (if isBlank docText then "" else "Documentation:\n" ++ docText ++ "\n\n") ++
  samplesSection samples ++ incorrectSection queryText history

/-- Model of `sql_generator.regenerate_sql_query`; same `response.usage`
failure as `generate_sql_query`. -/
def regenerate_sql_query (llm : String → String) (queryText schemaText docText : String)
    (samples : List (String × String)) (history : List QueryAttempt) :
    Except String String × List CallEvent :=
  if isBlank queryText then (.error "Query text cannot be empty", [])
  else
    let prompt := regenerateContext schemaText docText samples queryText history ++
      "\nGenerate a corrected SQL query for: " ++ queryText ++ "\nSQL:"
    let generatedSql := (llm prompt).trim
    if strResponseHasUsage then (.ok generatedSql, [.llmGenerate])
    else
      (.error "Failed to regenerate SQL: str object has no attribute usage", [.llmGenerate])

/-- The three vector store lookups a chat operation performs for a
question; `similarQueries` holds the `(question, sql)` fields of the
returned dicts. -/
structure RetrievalResults where
  similarDocs : List String
  similarDdl : List String
  similarQueries : List (String × String)
deriving DecidableEq, Repr

/-- Python dict assignment `d[k] = v`: an existing key keeps its
position and gets the new value, a new key is appended. -/
def dictInsert (d : List (String × String)) (k v : String) : List (String × String) :=
  if d.any (fun p => p.1 == k) then d.map (fun p => if p.1 == k then (k, v) else p)
  else d ++ [(k, v)]

/-- The `additional_samples` dict built from the similar-query results. -/
def buildSamples (qs : List (String × String)) : List (String × String) :=
  qs.foldl (fun d p => dictInsert d p.1 p.2) []

inductive GenResult where
  | ok (sql : String)
  | serverError (msg : String)
deriving DecidableEq, Repr

/-- Model of `ChatService.generate_sql` for an existing chat: performs
the three retrieval calls, calls `generate_sql_query`, and appends a
history entry (without an `is_correct` key) only when that returns. -/
def chat_generate_sql (llm : String → String) (retr : RetrievalResults) (ts : String)
    (chat : ChatState) (queryText : String) : ChatState × GenResult × List CallEvent :=
  let events := [CallEvent.relatedDocumentation, CallEvent.relatedDdl,
    CallEvent.similarQuestionSql]
  let samples := buildSamples retr.similarQueries
  let schemaText := retr.similarDdl.headD ""
  let docText := retr.similarDocs.headD ""
  match generate_sql_query llm queryText schemaText docText samples chat.history with
  | (.error msg, evs) => (chat, .serverError msg, events ++ evs)
  | (.ok sql, evs) =>
    ({ chat with history := chat.history ++ [⟨queryText, sql, none, ts⟩] },
     .ok sql, events ++ evs)

inductive FeedbackResult where
  | httpError (code : Nat) (detail : String)
  | ok (status : String) (feedbackEnabled : Option Bool)
  | regenerated (sql : String) (feedbackEnabled : Option Bool)
  | serverError (msg : String)
deriving DecidableEq, Repr

/-- Model of `ChatService.provide_feedback` (with `_regenerate_sql`
inlined for the `is_correct=False` branch).  An empty history is a 400;
`is_correct=True` sets `feedback_enabled = True` and touches nothing
else; `is_correct=False` re-runs retrieval and the regeneration LLM
call for the last question and appends the new attempt to the history
only if `regenerate_sql_query` returns. -/
def provide_feedback (llm : String → String) (retr : RetrievalResults) (ts : String)
    (chat : ChatState) (isCorrect : Bool) : ChatState × FeedbackResult :=
  match chat.history.getLast? with
  | none => (chat, .httpError 400 "No queries in chat history")
  | some lastq =>
    if isCorrect then
      ({ chat with feedbackEnabled := some true }, .ok "success" (some true))
    else
      let samples := buildSamples retr.similarQueries
      let ddlText := retr.similarDdl.headD ""
      let docsText := retr.similarDocs.headD ""
      match regenerate_sql_query llm lastq.text ddlText docsText samples chat.history with
      | (.error msg, _) => (chat, .serverError msg)
      | (.ok newSql, _) =>
        ({ chat with history := chat.history ++ [⟨lastq.text, newSql, none, ts⟩] },
         .regenerated newSql chat.feedbackEnabled)

/-- The `last_query_feedback` branch of `ChatService.update_chat`: sets
the `is_correct` key of the last history entry (this, not
`provide_feedback`, is where an attempt's correctness is recorded). -/
def update_chat_last_query_feedback (chat : ChatState) (value : Bool) : ChatState :=
  match chat.history.getLast? with
  | none => chat
  | some lastq =>
    { chat with history := chat.history.dropLast ++ [{ lastq with isCorrect := some value }] }

/-! # Theorems -/

/-! ## Properties of the similarity comparison -/

theorem simLE_iff (s t : SimScore) :
    simLE s t = true ↔
      (0 < s.dot ∧ 0 < t.dot ∧ s.dot ^ 2 * t.nsq ≤ t.dot ^ 2 * s.nsq) ∨
      (s.dot < 0 ∧ t.dot < 0 ∧ t.dot ^ 2 * s.nsq ≤ s.dot ^ 2 * t.nsq) ∨
      (s.dot ≤ 0 ∧ 0 ≤ t.dot) := by
  unfold simLE
  split_ifs with h1 h2
  · simp only [Bool.and_eq_true, decide_eq_true_eq]
    constructor
    · rintro ⟨ht, hle⟩
      exact Or.inl ⟨h1, ht, hle⟩
    · rintro (⟨_, ht, hle⟩ | ⟨hs, _, _⟩ | ⟨hs, _⟩)
      · exact ⟨ht, hle⟩
      · exfalso; linarith
      · exfalso; linarith
  · simp only [Bool.and_eq_true, decide_eq_true_eq]
    constructor
    · rintro ⟨hs, hle⟩
      exact Or.inr (Or.inl ⟨hs, h2, hle⟩)
    · rintro (⟨hs, _, _⟩ | ⟨hs', _, hle⟩ | ⟨_, ht⟩)
      · exact absurd hs h1
      · exact ⟨hs', hle⟩
      · exfalso; linarith
  · simp only [true_iff]
    exact Or.inr (Or.inr ⟨not_lt.mp h1, not_lt.mp h2⟩)

/-- Cross-multiplied transitivity core for symbolic square-root comparison. -/
theorem sq_cross_trans (d1 d2 d3 n1 n2 n3 : ℚ) (hd2 : d2 ≠ 0)
    (h1 : d1 ^ 2 * n2 ≤ d2 ^ 2 * n1) (h2 : d2 ^ 2 * n3 ≤ d3 ^ 2 * n2) :
    d1 ^ 2 * n3 ≤ d3 ^ 2 * n1 := by
  have h1' : d3 ^ 2 * (d1 ^ 2 * n2) ≤ d3 ^ 2 * (d2 ^ 2 * n1) :=
    mul_le_mul_of_nonneg_left h1 (sq_nonneg d3)
  have h2' : d1 ^ 2 * (d2 ^ 2 * n3) ≤ d1 ^ 2 * (d3 ^ 2 * n2) :=
    mul_le_mul_of_nonneg_left h2 (sq_nonneg d1)
  have hd : 0 < d2 ^ 2 := by positivity
  have key : d2 ^ 2 * (d1 ^ 2 * n3) ≤ d2 ^ 2 * (d3 ^ 2 * n1) := by nlinarith [h1', h2']
  exact le_of_mul_le_mul_left key hd

theorem simLE_trans (s t u : SimScore) (h1 : simLE s t = true) (h2 : simLE t u = true) :
    simLE s u = true := by
  rw [simLE_iff] at h1 h2 ⊢
  rcases h1 with ⟨hs, ht, hA⟩ | ⟨hs, ht, hA⟩ | ⟨hs, ht⟩ <;>
    rcases h2 with ⟨ht', hu, hB⟩ | ⟨ht', hu, hB⟩ | ⟨ht', hu⟩
  · exact Or.inl ⟨hs, hu, sq_cross_trans _ _ _ _ _ _ (ne_of_gt ht) hA hB⟩
  · exfalso; linarith
  · exfalso; linarith
  · exfalso; linarith
  · exact Or.inr (Or.inl ⟨hs, hu,
      sq_cross_trans u.dot t.dot s.dot u.nsq t.nsq s.nsq (ne_of_lt ht) hB hA⟩)
  · exact Or.inr (Or.inr ⟨le_of_lt hs, hu⟩)
  · exact Or.inr (Or.inr ⟨hs, le_of_lt hu⟩)
  · exfalso; linarith
  · exact Or.inr (Or.inr ⟨hs, hu⟩)

theorem simLE_total (s t : SimScore) : (simLE s t || simLE t s) = true := by
  simp only [Bool.or_eq_true, simLE_iff]
  rcases lt_trichotomy 0 s.dot with hs | hs | hs <;>
    rcases lt_trichotomy 0 t.dot with ht | ht | ht
  · rcases le_total (s.dot ^ 2 * t.nsq) (t.dot ^ 2 * s.nsq) with h | h
    · exact Or.inl (Or.inl ⟨hs, ht, h⟩)
    · exact Or.inr (Or.inl ⟨ht, hs, h⟩)
  · exact Or.inr (Or.inr (Or.inr ⟨by linarith, by linarith⟩))
  · exact Or.inr (Or.inr (Or.inr ⟨by linarith, by linarith⟩))
  · exact Or.inl (Or.inr (Or.inr ⟨by linarith, by linarith⟩))
  · exact Or.inl (Or.inr (Or.inr ⟨by linarith, by linarith⟩))
  · exact Or.inr (Or.inr (Or.inr ⟨by linarith, by linarith⟩))
  · exact Or.inl (Or.inr (Or.inr ⟨by linarith, by linarith⟩))
  · exact Or.inl (Or.inr (Or.inr ⟨by linarith, by linarith⟩))
  · rcases le_total (t.dot ^ 2 * s.nsq) (s.dot ^ 2 * t.nsq) with h | h
    · exact Or.inl (Or.inr (Or.inl ⟨hs, ht, h⟩))
    · exact Or.inr (Or.inr (Or.inl ⟨ht, hs, h⟩))

theorem descBySim_trans {α : Type} (a b c : SimScore × α)
    (h1 : descBySim a b = true) (h2 : descBySim b c = true) : descBySim a c = true :=
  simLE_trans c.1 b.1 a.1 h2 h1

theorem descBySim_total {α : Type} (a b : SimScore × α) :
    (descBySim a b || descBySim b a) = true := by
  have := simLE_total b.1 a.1
  simp only [descBySim, Bool.or_eq_true] at this ⊢
  tauto

/-! ## Properties of the stable descending ranking -/

theorem rankTop_length {α : Type} (scored : List (SimScore × α)) (n : Nat) :
    (rankTop scored n).length = min scored.length n := by
  simp [rankTop, List.length_take, (List.mergeSort_perm scored descBySim).length_eq,
    Nat.min_comm]

theorem rankTop_eq_lexRanked {α : Type} (scored : List (SimScore × α)) (n : Nat) :
    rankTop scored n = ((lexRanked scored).take n).map (fun p => p.2.2) := by
  unfold rankTop lexRanked
  rw [← @List.mergeSort_enum _ descBySim scored, ← List.map_take, List.map_map]
  rfl

theorem lexRanked_perm {α : Type} (scored : List (SimScore × α)) :
    List.Perm (lexRanked scored) scored.enum :=
  List.mergeSort_perm _ _

theorem lexRanked_sorted {α : Type} (scored : List (SimScore × α)) :
    (lexRanked scored).Pairwise (fun a b => List.enumLE descBySim a b = true) :=
  List.sorted_mergeSort
    (fun a b c => @List.enumLE_trans _ descBySim descBySim_trans a b c)
    (fun a b => @List.enumLE_total _ descBySim descBySim_total a b)
    (scored.enum)

theorem enumLE_antisymm_of_mem {α : Type} (scored : List (SimScore × α))
    (a b : Nat × (SimScore × α)) (ha : a ∈ scored.enum) (hb : b ∈ scored.enum)
    (hab : List.enumLE descBySim a b = true) (hba : List.enumLE descBySim b a = true) :
    a = b := by
  have hfst : a.1 = b.1 := by
    unfold List.enumLE at hab hba
    by_cases h1 : descBySim a.2 b.2 = true <;> by_cases h2 : descBySim b.2 a.2 = true <;>
      simp [h1, h2] at hab hba
    omega
  have ha' := List.mem_enum_iff_getElem?.mp ha
  have hb' := List.mem_enum_iff_getElem?.mp hb
  rw [hfst] at ha'
  rw [ha'] at hb'
  exact Prod.ext hfst (Option.some.inj hb')

theorem lexRanked_unique {α : Type} (scored : List (SimScore × α))
    (l : List (Nat × (SimScore × α))) (hp : List.Perm l scored.enum)
    (hs : l.Pairwise (fun a b => List.enumLE descBySim a b = true)) :
    l = lexRanked scored := by
  apply @List.Perm.eq_of_sorted _ (fun a b => List.enumLE descBySim a b = true) _ _
  · intro a b hal hbl hab hba
    exact enumLE_antisymm_of_mem scored a b (hp.subset hal)
      ((lexRanked_perm scored).subset hbl) hab hba
  · exact hs
  · exact lexRanked_sorted scored
  · exact hp.trans (lexRanked_perm scored).symm

theorem rankTop_perm_of_le {α : Type} (scored : List (SimScore × α)) (n : Nat)
    (h : scored.length ≤ n) : List.Perm (rankTop scored n) (scored.map (·.2)) := by
  unfold rankTop
  rw [List.take_of_length_le (by simpa [(List.mergeSort_perm scored descBySim).length_eq])]
  exact (List.mergeSort_perm scored descBySim).map (·.2)

/-! ## General helper lemmas -/

theorem normSq_nonneg (v : List ℚ) : 0 ≤ normSq v := by
  unfold normSq dotQ
  induction v with
  | nil => simp
  | cons x xs ih =>
    simp only [List.zipWith_cons_cons, List.sum_cons]
    nlinarith [mul_self_nonneg x]

theorem get_similar_sql_queries_eq_rankTop (table : List SQLQueryRec) (projectId : Nat)
    (queryEmbedding : List ℚ) (n : Nat) :
    get_similar_sql_queries table projectId queryEmbedding n
      = rankTop (scoredSqlQueries table projectId queryEmbedding) n := by
  unfold get_similar_sql_queries
  split
  · next h => simp [scoredSqlQueries, h, rankTop]
  · rfl

theorem get_similar_ddl_statements_eq_rankTop (table : List DDLRec) (projectId : Nat)
    (queryEmbedding : List ℚ) (n : Nat) :
    get_similar_ddl_statements table projectId queryEmbedding n
      = rankTop (scoredDdlStatements table projectId queryEmbedding) n := by
  unfold get_similar_ddl_statements
  split
  · next h => simp [scoredDdlStatements, h, rankTop]
  · rfl

theorem rankTop_mem {α : Type} (scored : List (SimScore × α)) (n : Nat) (x : α)
    (hx : x ∈ rankTop scored n) : ∃ p ∈ scored, x = p.2 := by
  unfold rankTop at hx
  obtain ⟨p, hp, rfl⟩ := List.mem_map.mp hx
  exact ⟨p, List.mem_mergeSort.mp (List.mem_of_mem_take hp), rfl⟩

theorem chromaAddEntry_dup (col : List ChromaEntry) (e e' : ChromaEntry)
    (h : e'.id = e.id) :
    chromaAddEntry (chromaAddEntry col e) e' = chromaAddEntry col e := by
  unfold chromaAddEntry
  by_cases hc : col.any (fun x => x.id == e.id)
  · simp [hc, h]
  · simp [hc, h]

theorem chromaAddSqlEntry_dup (col : List ChromaSqlEntry) (e e' : ChromaSqlEntry)
    (h : e'.id = e.id) :
    chromaAddSqlEntry (chromaAddSqlEntry col e) e' = chromaAddSqlEntry col e := by
  unfold chromaAddSqlEntry
  by_cases hc : col.any (fun x => x.id == e.id)
  · simp [hc, h]
  · simp [hc, h]

/-! ## C7 — cosine similarity formula and the zero-norm case -/

/-- C7 counterexample: at `vec1 = [0]`, `vec2 = [1]` (equal dimension,
`vec1` of zero norm) the code computes `0.0 / 0.0`, which numpy turns
into NaN with a RuntimeWarning — not the value `0` the claim requires,
and not an exception either, so the `except → 0.0` branch does not run.
The resulting score is the NaN `⟨0, 0⟩`, not a zero value (which would
be a score with `isNaN = false`). -/
theorem C7_cosine_zero_norm_counterexample :
    cosine_similarity [(0 : ℚ)] [1] = ⟨0, 0⟩ ∧
    (cosine_similarity [(0 : ℚ)] [1]).isNaN = true := by
  constructor
  · simp [cosine_similarity, dotQ, normSq]
  · simp [cosine_similarity, dotQ, normSq, SimScore.isNaN]

/-- C7 (amended): for equal-dimension vectors, when neither vector has
zero norm the similarity computed by `_cosine_similarity` is exactly
`dot(a,b) / (|a| * |b|)` (as a real number) and is not NaN; when either
vector has zero norm the computed similarity is NaN (numpy `0.0/0.0`),
not `0`, so the ranking relation is not totalized there. -/
theorem C7_cosine_similarity_amended (a b : List ℚ) (hl : a.length = b.length) :
    (normSq a * normSq b ≠ 0 →
      (cosine_similarity a b).isNaN = false ∧
      ((cosine_similarity a b).dot : ℝ) / Real.sqrt ((cosine_similarity a b).nsq : ℚ)
        = (dotQ a b : ℝ) / (Real.sqrt (normSq a : ℚ) * Real.sqrt (normSq b : ℚ)))
  ∧ (normSq a * normSq b = 0 → (cosine_similarity a b).isNaN = true) := by
  have e : cosine_similarity a b = ⟨dotQ a b, normSq a * normSq b⟩ := by
    simp [cosine_similarity, hl]
  constructor
  · intro h
    refine ⟨by simp [e, SimScore.isNaN, h], ?_⟩
    rw [e]
    have h1 : (0 : ℝ) ≤ ((normSq a : ℚ) : ℝ) := by exact_mod_cast normSq_nonneg a
    have : (((normSq a * normSq b : ℚ)) : ℝ) = ((normSq a : ℚ) : ℝ) * ((normSq b : ℚ) : ℝ) := by
      push_cast
      ring
    simp only
    rw [this, Real.sqrt_mul h1]
  · intro h
    simp [e, SimScore.isNaN, h]

/-- Witness for `C7_cosine_similarity_amended` at `a = [1], b = [2]`. -/
theorem C7_cosine_similarity_amended_witness :
    (normSq [(1 : ℚ)] * normSq [(2 : ℚ)] ≠ 0 →
      (cosine_similarity [(1 : ℚ)] [2]).isNaN = false ∧
      ((cosine_similarity [(1 : ℚ)] [2]).dot : ℝ)
          / Real.sqrt ((cosine_similarity [(1 : ℚ)] [2]).nsq : ℚ)
        = (dotQ [(1 : ℚ)] [2] : ℝ)
          / (Real.sqrt (normSq [(1 : ℚ)] : ℚ) * Real.sqrt (normSq [(2 : ℚ)] : ℚ)))
  ∧ (normSq [(1 : ℚ)] * normSq [(2 : ℚ)] = 0 →
      (cosine_similarity [(1 : ℚ)] [2]).isNaN = true) :=
  C7_cosine_similarity_amended [1] [2] rfl

/-! ## C10 — Chroma DDL/documentation ids are content-only -/

/-- C10: in the Chroma backend, the record ids of `add_ddl` and
`add_documentation` are `deterministic_uuid(text) + suffix`, computed from
the content text alone; for two distinct projects `A ≠ B` adding the same
text returns the identical id, and the second add collides on that id:
chroma skips it, so no independent second record is created (the store
after the second add equals the store after the first). -/
theorem C10_chroma_content_only_ids (emb : String → List ℚ) (ddl doc A B : String)
    (colD colC : List ChromaEntry) (hAB : A ≠ B) :
    (chroma_add_ddl emb ddl (some A) colD).1 = (chroma_add_ddl emb ddl (some B) colD).1
  ∧ (ddl ≠ "" → (chroma_add_ddl emb ddl (some A) colD).1
      = some ((sha256Hex (strBytes ddl)).take 32 ++ "-ddl"))
  ∧ (chroma_add_ddl emb ddl (some B) (chroma_add_ddl emb ddl (some A) colD).2).2
      = (chroma_add_ddl emb ddl (some A) colD).2
  ∧ (chroma_add_documentation emb doc (some A) colC).1
      = (chroma_add_documentation emb doc (some B) colC).1
  ∧ (doc ≠ "" → (chroma_add_documentation emb doc (some A) colC).1
      = some ((sha256Hex (strBytes doc)).take 32 ++ "-doc"))
  ∧ (chroma_add_documentation emb doc (some B)
        (chroma_add_documentation emb doc (some A) colC).2).2
      = (chroma_add_documentation emb doc (some A) colC).2 := by
  refine ⟨?_, ?_, ?_, ?_, ?_, ?_⟩
  · unfold chroma_add_ddl
    cases deterministic_uuid ddl <;> rfl
  · intro h
    unfold chroma_add_ddl deterministic_uuid
    rw [if_neg h]
  · unfold chroma_add_ddl
    cases deterministic_uuid ddl with
    | none => rfl
    | some h => exact chromaAddEntry_dup colD _ _ rfl
  · unfold chroma_add_documentation
    cases deterministic_uuid doc <;> rfl
  · intro h
    unfold chroma_add_documentation deterministic_uuid
    rw [if_neg h]
  · unfold chroma_add_documentation
    cases deterministic_uuid doc with
    | none => rfl
    | some h => exact chromaAddEntry_dup colC _ _ rfl

/-- Witness for `C10_chroma_content_only_ids` at concrete projects
`"1" ≠ "2"` and concrete texts. -/
theorem C10_chroma_content_only_ids_witness :
    (chroma_add_ddl (fun _ => [1]) "CREATE TABLE sales (id INT)" (some "1") []).1
      = (chroma_add_ddl (fun _ => [1]) "CREATE TABLE sales (id INT)" (some "2") []).1
  ∧ ("CREATE TABLE sales (id INT)" ≠ "" →
      (chroma_add_ddl (fun _ => [1]) "CREATE TABLE sales (id INT)" (some "1") []).1
        = some ((sha256Hex (strBytes "CREATE TABLE sales (id INT)")).take 32 ++ "-ddl"))
  ∧ (chroma_add_ddl (fun _ => [1]) "CREATE TABLE sales (id INT)" (some "2")
        (chroma_add_ddl (fun _ => [1]) "CREATE TABLE sales (id INT)" (some "1") []).2).2
      = (chroma_add_ddl (fun _ => [1]) "CREATE TABLE sales (id INT)" (some "1") []).2
  ∧ (chroma_add_documentation (fun _ => [1]) "sales docs" (some "1") []).1
      = (chroma_add_documentation (fun _ => [1]) "sales docs" (some "2") []).1
  ∧ ("sales docs" ≠ "" →
      (chroma_add_documentation (fun _ => [1]) "sales docs" (some "1") []).1
        = some ((sha256Hex (strBytes "sales docs")).take 32 ++ "-doc"))
  ∧ (chroma_add_documentation (fun _ => [1]) "sales docs" (some "2")
        (chroma_add_documentation (fun _ => [1]) "sales docs" (some "1") []).2).2
      = (chroma_add_documentation (fun _ => [1]) "sales docs" (some "1") []).2 :=
  C10_chroma_content_only_ids (fun _ => [1]) "CREATE TABLE sales (id INT)" "sales docs"
    "1" "2" [] [] (by decide)

/-! ## C4 — idempotency of duplicate adds -/

/-- C4 counterexample: in the Postgres store (`PostgresDB_VectorStore.add_ddl`),
adding the same DDL text twice to the same project returns two different
ids (each insert gets a fresh `uuid.uuid4()` row id — here the fresh ids
0 and 1) and leaves two visible rows with that content, so `add` is not
idempotent as claimed. -/
theorem C4_postgres_not_idempotent_counterexample :
    (pg_add_ddl (fun _ => [1]) "CREATE TABLE sales (id INT)" (some 7)
        (⟨[7], [], [], [], 0⟩ : PgState)).1 = some 0
  ∧ (pg_add_ddl (fun _ => [1]) "CREATE TABLE sales (id INT)" (some 7)
      (pg_add_ddl (fun _ => [1]) "CREATE TABLE sales (id INT)" (some 7)
        (⟨[7], [], [], [], 0⟩ : PgState)).2).1 = some 1
  ∧ (pg_add_ddl (fun _ => [1]) "CREATE TABLE sales (id INT)" (some 7)
        (⟨[7], [], [], [], 0⟩ : PgState)).1
      ≠ (pg_add_ddl (fun _ => [1]) "CREATE TABLE sales (id INT)" (some 7)
          (pg_add_ddl (fun _ => [1]) "CREATE TABLE sales (id INT)" (some 7)
            (⟨[7], [], [], [], 0⟩ : PgState)).2).1
  ∧ (((pg_add_ddl (fun _ => [1]) "CREATE TABLE sales (id INT)" (some 7)
        (pg_add_ddl (fun _ => [1]) "CREATE TABLE sales (id INT)" (some 7)
          (⟨[7], [], [], [], 0⟩ : PgState)).2).2).ddlStatements.filter
            (fun r => r.ddl == "CREATE TABLE sales (id INT)")).length = 2 := by
  decide

/-- C4 (amended): duplicate-add behavior depends on the backend.  In the
Chroma backend `add_ddl` and `add_question_sql` are idempotent: the same
content yields the same deterministic id both times and the second add
changes nothing (so exactly one matching entry is visible).  In the
Postgres backend every successful add inserts a new row under a fresh
id: re-adding identical content yields a different id and a duplicate
row. -/
theorem C4_idempotency_amended (emb embP : String → List ℚ) (ddl q s pid : String)
    (p : Nat) (col : List ChromaEntry) (colQ : List ChromaSqlEntry) (st : PgState)
    (hd : ddl ≠ "") (hfresh : ∀ e ∈ col, e.id ≠ (sha256Hex (strBytes ddl)).take 32 ++ "-ddl")
    (hp : p ∈ st.projects) (he : embP ddl ≠ []) :
    (chroma_add_ddl emb ddl (some pid) col).1
      = (chroma_add_ddl emb ddl (some pid) (chroma_add_ddl emb ddl (some pid) col).2).1
  ∧ (chroma_add_ddl emb ddl (some pid) (chroma_add_ddl emb ddl (some pid) col).2).2
      = (chroma_add_ddl emb ddl (some pid) col).2
  ∧ (((chroma_add_ddl emb ddl (some pid) col).2).filter
        (fun e => e.id == (sha256Hex (strBytes ddl)).take 32 ++ "-ddl")).length = 1
  ∧ (chroma_add_question_sql emb q s (some pid) colQ).1
      = (chroma_add_question_sql emb q s (some pid)
          (chroma_add_question_sql emb q s (some pid) colQ).2).1
  ∧ (chroma_add_question_sql emb q s (some pid)
        (chroma_add_question_sql emb q s (some pid) colQ).2).2
      = (chroma_add_question_sql emb q s (some pid) colQ).2
  ∧ (pg_add_ddl embP ddl (some p) st).1 = some st.nextId
  ∧ (pg_add_ddl embP ddl (some p) ((pg_add_ddl embP ddl (some p) st).2)).1
      = some (st.nextId + 1)
  ∧ (pg_add_ddl embP ddl (some p) st).1
      ≠ (pg_add_ddl embP ddl (some p) ((pg_add_ddl embP ddl (some p) st).2)).1
  ∧ ((pg_add_ddl embP ddl (some p) ((pg_add_ddl embP ddl (some p) st).2)).2).ddlStatements
      = st.ddlStatements ++ [⟨st.nextId, p, ddl, embP ddl⟩]
          ++ [⟨st.nextId + 1, p, ddl, embP ddl⟩] := by
  have hdet : deterministic_uuid ddl = some ((sha256Hex (strBytes ddl)).take 32) := by
    unfold deterministic_uuid
    rw [if_neg hd]
  have hpg1 : pg_add_ddl embP ddl (some p) st
      = (some st.nextId,
         { st with
           ddlStatements := st.ddlStatements ++ [⟨st.nextId, p, ddl, embP ddl⟩],
           nextId := st.nextId + 1 }) := by
    unfold pg_add_ddl
    simp [hp, he]
  have hpg2 : pg_add_ddl embP ddl (some p) ((pg_add_ddl embP ddl (some p) st).2)
      = (some (st.nextId + 1),
         { st with
           ddlStatements := st.ddlStatements ++ [⟨st.nextId, p, ddl, embP ddl⟩]
             ++ [⟨st.nextId + 1, p, ddl, embP ddl⟩],
           nextId := st.nextId + 2 }) := by
    rw [hpg1]
    unfold pg_add_ddl
    simp [hp, he]
  refine ⟨?_, ?_, ?_, ?_, ?_, ?_, ?_, ?_, ?_⟩
  · unfold chroma_add_ddl
    rw [hdet]
  · unfold chroma_add_ddl
    rw [hdet]
    exact chromaAddEntry_dup col _ _ rfl
  · unfold chroma_add_ddl
    rw [hdet]
    simp only [chromaAddEntry]
    have hany : col.any
        (fun x => x.id == (sha256Hex (strBytes ddl)).take 32 ++ "-ddl") = false := by
      rw [List.any_eq_false]
      intro e hme
      simpa using hfresh e hme
    rw [if_neg (by simp [hany])]
    rw [List.filter_append]
    have : col.filter (fun e => e.id == (sha256Hex (strBytes ddl)).take 32 ++ "-ddl") = [] := by
      rw [List.filter_eq_nil_iff]
      intro e hme
      simpa using hfresh e hme
    simp [this]
  · cases hdq : deterministic_uuid (questionSqlJson q s (some pid)) with
    | none => simp [chroma_add_question_sql, hdq]
    | some h => simp [chroma_add_question_sql, hdq]
  · cases hdq : deterministic_uuid (questionSqlJson q s (some pid)) with
    | none => simp [chroma_add_question_sql, hdq]
    | some h =>
      simp only [chroma_add_question_sql, hdq]
      exact chromaAddSqlEntry_dup colQ _ _ rfl
  · rw [hpg1]
  · rw [hpg2]
  · rw [hpg2, hpg1]
    simp
  · rw [hpg2]

/-- Witness for `C4_idempotency_amended` at a one-project Postgres store
and empty Chroma collections. -/
theorem C4_idempotency_amended_witness :
    ((chroma_add_ddl (fun _ => [1]) "CREATE TABLE t (x INT)" (some "1") []).1
      = (chroma_add_ddl (fun _ => [1]) "CREATE TABLE t (x INT)" (some "1")
          (chroma_add_ddl (fun _ => [1]) "CREATE TABLE t (x INT)" (some "1") []).2).1)
  ∧ ((chroma_add_ddl (fun _ => [1]) "CREATE TABLE t (x INT)" (some "1")
        (chroma_add_ddl (fun _ => [1]) "CREATE TABLE t (x INT)" (some "1") []).2).2
      = (chroma_add_ddl (fun _ => [1]) "CREATE TABLE t (x INT)" (some "1") []).2)
  ∧ ((((chroma_add_ddl (fun _ => [1]) "CREATE TABLE t (x INT)" (some "1") []).2).filter
        (fun e => e.id == (sha256Hex (strBytes "CREATE TABLE t (x INT)")).take 32
          ++ "-ddl")).length = 1)
  ∧ ((chroma_add_question_sql (fun _ => [1]) "total?" "SELECT 1" (some "1") []).1
      = (chroma_add_question_sql (fun _ => [1]) "total?" "SELECT 1" (some "1")
          (chroma_add_question_sql (fun _ => [1]) "total?" "SELECT 1" (some "1") []).2).1)
  ∧ ((chroma_add_question_sql (fun _ => [1]) "total?" "SELECT 1" (some "1")
        (chroma_add_question_sql (fun _ => [1]) "total?" "SELECT 1" (some "1") []).2).2
      = (chroma_add_question_sql (fun _ => [1]) "total?" "SELECT 1" (some "1") []).2)
  ∧ ((pg_add_ddl (fun _ => [1]) "CREATE TABLE t (x INT)" (some 7)
        (⟨[7], [], [], [], 0⟩ : PgState)).1 = some 0)
  ∧ ((pg_add_ddl (fun _ => [1]) "CREATE TABLE t (x INT)" (some 7)
        ((pg_add_ddl (fun _ => [1]) "CREATE TABLE t (x INT)" (some 7)
          (⟨[7], [], [], [], 0⟩ : PgState)).2)).1 = some 1)
  ∧ ((pg_add_ddl (fun _ => [1]) "CREATE TABLE t (x INT)" (some 7)
        (⟨[7], [], [], [], 0⟩ : PgState)).1
      ≠ (pg_add_ddl (fun _ => [1]) "CREATE TABLE t (x INT)" (some 7)
          ((pg_add_ddl (fun _ => [1]) "CREATE TABLE t (x INT)" (some 7)
            (⟨[7], [], [], [], 0⟩ : PgState)).2)).1)
  ∧ (((pg_add_ddl (fun _ => [1]) "CREATE TABLE t (x INT)" (some 7)
        ((pg_add_ddl (fun _ => [1]) "CREATE TABLE t (x INT)" (some 7)
          (⟨[7], [], [], [], 0⟩ : PgState)).2)).2).ddlStatements
      = ([] : List DDLRec) ++ [⟨0, 7, "CREATE TABLE t (x INT)", [1]⟩]
          ++ [⟨1, 7, "CREATE TABLE t (x INT)", [1]⟩]) :=
  C4_idempotency_amended (fun _ => [1]) (fun _ => [1]) "CREATE TABLE t (x INT)"
    "total?" "SELECT 1" "1" 7 [] [] (⟨[7], [], [], [], 0⟩ : PgState)
    (by decide) (by intro e hme; cases hme) (by decide) (by decide)

/-! ## C1 — provide_feedback with is_correct=True -/

/-- C1 counterexample: on a chat with one history entry (correctness key
absent) `provide_feedback(is_correct=True)` sets the feedback-enabled
flag to TRUE — not to false/off as the claim states — and does not touch
the last entry's correctness (it stays absent, not `true`). -/
theorem C1_feedback_correct_counterexample :
    ((provide_feedback (fun _ => "SQL") ⟨[], [], []⟩ "t1"
        (⟨[⟨"total sales", "SELECT 1", none, "t0"⟩], none⟩ : ChatState) true).1.feedbackEnabled
      = some true)
  ∧ ¬ ((provide_feedback (fun _ => "SQL") ⟨[], [], []⟩ "t1"
        (⟨[⟨"total sales", "SELECT 1", none, "t0"⟩], none⟩ : ChatState) true).1.feedbackEnabled
      = some false)
  ∧ (((provide_feedback (fun _ => "SQL") ⟨[], [], []⟩ "t1"
        (⟨[⟨"total sales", "SELECT 1", none, "t0"⟩], none⟩ : ChatState) true).1.history.map
          (fun a => a.isCorrect)) = [none])
  ∧ ¬ (((provide_feedback (fun _ => "SQL") ⟨[], [], []⟩ "t1"
        (⟨[⟨"total sales", "SELECT 1", none, "t0"⟩], none⟩ : ChatState) true).1.history.map
          (fun a => a.isCorrect)) = [some true]) := by
  refine ⟨rfl, by decide, rfl, by decide⟩

/-- C1 (amended): for every chat with non-empty history,
`provide_feedback(is_correct=True)` sets the chat's `feedback_enabled`
flag to TRUE and leaves the query history entirely unchanged; the last
entry's correctness is not modified by this call — it is recorded by the
separate `update_chat` operation (`last_query_feedback`), which rewrites
only the last entry's `is_correct` key. -/
theorem C1_feedback_correct_amended (llm : String → String) (retr : RetrievalResults)
    (ts : String) (chat : ChatState) (h : chat.history ≠ []) :
    (provide_feedback llm retr ts chat true).1
      = { chat with feedbackEnabled := some true }
  ∧ (provide_feedback llm retr ts chat true).2 = .ok "success" (some true)
  ∧ (provide_feedback llm retr ts chat true).1.history = chat.history
  ∧ (∀ v : Bool,
      (update_chat_last_query_feedback chat v).history.dropLast = chat.history.dropLast
      ∧ ((update_chat_last_query_feedback chat v).history.getLast?.map
          (fun a => a.isCorrect)) = some (some v)) := by
  obtain ⟨l, hl⟩ : ∃ l, chat.history.getLast? = some l := by
    cases hq : chat.history.getLast? with
    | none => exact absurd (List.getLast?_eq_none_iff.mp hq) h
    | some l => exact ⟨l, rfl⟩
  refine ⟨?_, ?_, ?_, ?_⟩
  · unfold provide_feedback
    rw [hl]
    rfl
  · unfold provide_feedback
    rw [hl]
    rfl
  · unfold provide_feedback
    rw [hl]
    rfl
  · intro v
    unfold update_chat_last_query_feedback
    rw [hl]
    constructor
    · simp [List.dropLast_concat]
    · simp [List.getLast?_concat]

/-- Witness for `C1_feedback_correct_amended` on a one-entry chat. -/
theorem C1_feedback_correct_amended_witness :
    ((provide_feedback (fun _ => "SQL") ⟨[], [], []⟩ "t1"
        (⟨[⟨"q", "s", none, "t0"⟩], none⟩ : ChatState) true).1
      = { (⟨[⟨"q", "s", none, "t0"⟩], none⟩ : ChatState) with feedbackEnabled := some true })
  ∧ ((provide_feedback (fun _ => "SQL") ⟨[], [], []⟩ "t1"
        (⟨[⟨"q", "s", none, "t0"⟩], none⟩ : ChatState) true).2 = .ok "success" (some true))
  ∧ ((provide_feedback (fun _ => "SQL") ⟨[], [], []⟩ "t1"
        (⟨[⟨"q", "s", none, "t0"⟩], none⟩ : ChatState) true).1.history
      = (⟨[⟨"q", "s", none, "t0"⟩], none⟩ : ChatState).history)
  ∧ (∀ v : Bool,
      (update_chat_last_query_feedback (⟨[⟨"q", "s", none, "t0"⟩], none⟩ : ChatState) v).history.dropLast
        = (⟨[⟨"q", "s", none, "t0"⟩], none⟩ : ChatState).history.dropLast
      ∧ ((update_chat_last_query_feedback (⟨[⟨"q", "s", none, "t0"⟩], none⟩ : ChatState) v).history.getLast?.map
          (fun a => a.isCorrect)) = some (some v)) :=
  C1_feedback_correct_amended (fun _ => "SQL") ⟨[], [], []⟩ "t1"
    (⟨[⟨"q", "s", none, "t0"⟩], none⟩ : ChatState) (by decide)

/-! ## C8 — provide_feedback with is_correct=False -/

/-- C8 (code bug): the claim (a new history entry is appended, prior
entries preserved) matches the spec and the visible intent of
`_regenerate_sql`, but the code never gets there: `regenerate_sql_query`
evaluates `response.usage` on the plain string returned by
`bedrock.generate_text` (a leftover from the commented-out OpenAI
client), so every call raises AttributeError, re-raised as
`"Failed to regenerate SQL: ..."`, before `history.append` runs.  The
first conjunct shows the chat state is unchanged for EVERY chat, llm and
retrieval result; the rest evaluate the model at the failing input: a
one-entry chat whose attempt was judged incorrect. -/
theorem C8_feedback_incorrect_code_bug :
    (∀ (llm : String → String) (retr : RetrievalResults) (ts : String) (chat : ChatState),
      (provide_feedback llm retr ts chat false).1 = chat)
  ∧ ((provide_feedback (fun _ => "SELECT SUM(amount) FROM sales") ⟨[], [], []⟩ "t1"
        (⟨[⟨"total sales", "SELECT 2", some false, "t0"⟩], none⟩ : ChatState) false).1
      = (⟨[⟨"total sales", "SELECT 2", some false, "t0"⟩], none⟩ : ChatState))
  ∧ ((provide_feedback (fun _ => "SELECT SUM(amount) FROM sales") ⟨[], [], []⟩ "t1"
        (⟨[⟨"total sales", "SELECT 2", some false, "t0"⟩], none⟩ : ChatState) false).2
      = .serverError "Failed to regenerate SQL: str object has no attribute usage")
  ∧ ((provide_feedback (fun _ => "SELECT SUM(amount) FROM sales") ⟨[], [], []⟩ "t1"
        (⟨[⟨"total sales", "SELECT 2", some false, "t0"⟩], none⟩ : ChatState) false).1.history.length
      = 1) := by
  refine ⟨?_, ?_, ?_, ?_⟩
  · intro llm retr ts chat
    unfold provide_feedback
    cases hq : chat.history.getLast? with
    | none => rfl
    | some l =>
      simp only
      unfold regenerate_sql_query
      by_cases hb : isBlank l.text = true <;> simp [hb, strResponseHasUsage]
  · decide
  · decide
  · decide

/-! ## C6 — empty question handling in generate -/

/-- C6 counterexample: generating with a whitespace-only question does
fail ("Query text cannot be empty"), but only AFTER the three vector
store retrieval calls (each of which embeds the question) have run: the
recorded call trace at the failure is the three retrieval events, not
the empty trace the claim requires. -/
theorem C6_empty_question_counterexample :
    ((chat_generate_sql (fun _ => "SELECT 1")
        ⟨["docs"], ["CREATE TABLE t (x INT)"], []⟩ "t0"
        (⟨[], none⟩ : ChatState) "   ").2.1
      = .serverError "Query text cannot be empty")
  ∧ ((chat_generate_sql (fun _ => "SELECT 1")
        ⟨["docs"], ["CREATE TABLE t (x INT)"], []⟩ "t0"
        (⟨[], none⟩ : ChatState) "   ").2.2
      = [CallEvent.relatedDocumentation, CallEvent.relatedDdl, CallEvent.similarQuestionSql])
  ∧ ¬ ((chat_generate_sql (fun _ => "SELECT 1")
        ⟨["docs"], ["CREATE TABLE t (x INT)"], []⟩ "t0"
        (⟨[], none⟩ : ChatState) "   ").2.2 = []) := by
  refine ⟨by decide, by decide, by decide⟩

/-- C6 (amended): for every chat, generating with an empty or
whitespace-only question fails with "Query text cannot be empty" before
the LLM call (no `llmGenerate` event) and without touching the history —
but only after the three context-retrieval calls (documentation, DDL,
similar question/SQL, each embedding the question) have been performed. -/
theorem C6_empty_question_amended (llm : String → String) (retr : RetrievalResults)
    (ts : String) (chat : ChatState) (q : String) (h : isBlank q = true) :
    ((chat_generate_sql llm retr ts chat q).1 = chat)
  ∧ ((chat_generate_sql llm retr ts chat q).2.1 = .serverError "Query text cannot be empty")
  ∧ ((chat_generate_sql llm retr ts chat q).2.2
      = [CallEvent.relatedDocumentation, CallEvent.relatedDdl, CallEvent.similarQuestionSql])
  ∧ (CallEvent.llmGenerate ∉ (chat_generate_sql llm retr ts chat q).2.2) := by
  have hg : generate_sql_query llm q (retr.similarDdl.headD "") (retr.similarDocs.headD "")
      (buildSamples retr.similarQueries) chat.history
      = (.error "Query text cannot be empty", []) := by
    unfold generate_sql_query
    rw [if_pos h]
  refine ⟨?_, ?_, ?_, ?_⟩ <;> simp only [chat_generate_sql] <;> rw [hg] <;> simp

/-- Witness for `C6_empty_question_amended` at the whitespace-only
question `"  "`. -/
theorem C6_empty_question_amended_witness :
    ((chat_generate_sql (fun _ => "SELECT 1") ⟨[], [], []⟩ "t0"
        (⟨[], none⟩ : ChatState) "  ").1 = (⟨[], none⟩ : ChatState))
  ∧ ((chat_generate_sql (fun _ => "SELECT 1") ⟨[], [], []⟩ "t0"
        (⟨[], none⟩ : ChatState) "  ").2.1 = .serverError "Query text cannot be empty")
  ∧ ((chat_generate_sql (fun _ => "SELECT 1") ⟨[], [], []⟩ "t0"
        (⟨[], none⟩ : ChatState) "  ").2.2
      = [CallEvent.relatedDocumentation, CallEvent.relatedDdl, CallEvent.similarQuestionSql])
  ∧ (CallEvent.llmGenerate ∉ (chat_generate_sql (fun _ => "SELECT 1") ⟨[], [], []⟩ "t0"
        (⟨[], none⟩ : ChatState) "  ").2.2) :=
  C6_empty_question_amended (fun _ => "SELECT 1") ⟨[], [], []⟩ "t0"
    (⟨[], none⟩ : ChatState) "  " (by decide)

/-! ## C9 — embedding failure on add and search -/

/-- C9 counterexample: with a failing embedding provider,
`get_similar_question_sql` on a project that HAS a stored record returns
the plain empty list — exactly the result of an ordinary search over a
project with no records using a healthy provider.  The failure is
swallowed, not surfaced as a distinguishable hard stop. -/
theorem C9_search_failure_counterexample :
    (pg_get_similar_question_sql (fun _ => []) 
        (⟨[7], [⟨0, 7, "total sales", "SELECT SUM(amount) FROM sales", [1]⟩], [], [], 1⟩ : PgState)
        "total sales" (some 7) 10 = [])
  ∧ (pg_get_similar_question_sql (fun _ => [1])
        (⟨[7], [], [], [], 0⟩ : PgState) "total sales" (some 7) 10 = [])
  ∧ (pg_get_similar_question_sql (fun _ => [])
        (⟨[7], [⟨0, 7, "total sales", "SELECT SUM(amount) FROM sales", [1]⟩], [], [], 1⟩ : PgState)
        "total sales" (some 7) 10
      = pg_get_similar_question_sql (fun _ => [1])
          (⟨[7], [], [], [], 0⟩ : PgState) "total sales" (some 7) 10) := by
  refine ⟨by decide, ?_, ?_⟩ <;>
    simp [pg_get_similar_question_sql, get_similar_sql_queries]

/-- C9 (amended): when the embedding provider fails or returns an empty
embedding, the add operations do abort with a distinguishable `None` and
store nothing (no zero-vector record); but a search with a failed
embedding returns the plain empty list, indistinguishable from an
ordinary empty result. -/
theorem C9_embedding_failure_amended (emb : String → List ℚ) (q s ddl question : String)
    (p : Nat) (st : PgState) (n : Nat)
    (hq : emb (q ++ " " ++ s) = []) (hd : emb ddl = []) (hqe : emb question = []) :
    (pg_add_question_sql emb q s (some p) st = (none, st))
  ∧ (pg_add_ddl emb ddl (some p) st = (none, st))
  ∧ (pg_get_similar_question_sql emb st question (some p) n = []) := by
  refine ⟨?_, ?_, ?_⟩
  · unfold pg_add_question_sql
    by_cases hp : p ∈ st.projects <;> simp [hp, hq]
  · unfold pg_add_ddl
    by_cases hp : p ∈ st.projects <;> simp [hp, hd]
  · unfold pg_get_similar_question_sql
    simp [hqe]

/-- Witness for `C9_embedding_failure_amended` with the constantly
failing provider. -/
theorem C9_embedding_failure_amended_witness :
    (pg_add_question_sql (fun _ => []) "q" "s" (some 7) (⟨[7], [], [], [], 0⟩ : PgState)
      = (none, (⟨[7], [], [], [], 0⟩ : PgState)))
  ∧ (pg_add_ddl (fun _ => []) "CREATE TABLE t (x INT)" (some 7)
        (⟨[7], [], [], [], 0⟩ : PgState)
      = (none, (⟨[7], [], [], [], 0⟩ : PgState)))
  ∧ (pg_get_similar_question_sql (fun _ => []) (⟨[7], [], [], [], 0⟩ : PgState)
      "q" (some 7) 10 = []) :=
  C9_embedding_failure_amended (fun _ => []) "q" "s" "CREATE TABLE t (x INT)" "q" 7
    (⟨[7], [], [], [], 0⟩ : PgState) 10 rfl rfl rfl

/-! ## C2 — top-k similarity search -/

/-- C2: for a project with N stored records and a query embedding such
that no similarity evaluates to NaN (i.e. no zero-norm vector is
involved — see C7 for the NaN behavior there), the Postgres similarity
search returns exactly the `min N k` highest-scoring records: the result
equals the first `k` elements of `lexRanked`, the unique reordering of
the project's scored records that is sorted by descending cosine
similarity with ties broken by ascending insertion index.  The conjuncts
state, for both `_get_similar_sql_queries` and
`_get_similar_ddl_statements`: the result length is `min N k`; the
result is the `k`-prefix of `lexRanked` (payload projection);
`lexRanked` is a permutation of the indexed scored records; `lexRanked`
is sorted by (descending similarity, ascending index); any sorted
permutation equals `lexRanked` (uniqueness — "the" top-k records); and
when `N ≤ k` the result is a permutation of all the project's payloads. -/
theorem C2_similarity_search_top_k (table : List SQLQueryRec) (dtable : List DDLRec)
    (projectId : Nat) (queryEmbedding : List ℚ) (k : Nat)
    (hq : ∀ p ∈ scoredSqlQueries table projectId queryEmbedding, p.1.isNaN = false)
    (hd : ∀ p ∈ scoredDdlStatements dtable projectId queryEmbedding, p.1.isNaN = false) :
    ((get_similar_sql_queries table projectId queryEmbedding k).length
        = min (scoredSqlQueries table projectId queryEmbedding).length k)
  ∧ (get_similar_sql_queries table projectId queryEmbedding k
      = ((lexRanked (scoredSqlQueries table projectId queryEmbedding)).take k).map
          (fun p => p.2.2))
  ∧ (List.Perm (lexRanked (scoredSqlQueries table projectId queryEmbedding))
      (scoredSqlQueries table projectId queryEmbedding).enum)
  ∧ ((lexRanked (scoredSqlQueries table projectId queryEmbedding)).Pairwise
      (fun a b => List.enumLE descBySim a b = true))
  ∧ (∀ l, List.Perm l (scoredSqlQueries table projectId queryEmbedding).enum →
      l.Pairwise (fun a b => List.enumLE descBySim a b = true) →
      l = lexRanked (scoredSqlQueries table projectId queryEmbedding))
  ∧ ((scoredSqlQueries table projectId queryEmbedding).length ≤ k →
      List.Perm (get_similar_sql_queries table projectId queryEmbedding k)
        ((scoredSqlQueries table projectId queryEmbedding).map (·.2)))
  ∧ ((get_similar_ddl_statements dtable projectId queryEmbedding k).length
        = min (scoredDdlStatements dtable projectId queryEmbedding).length k)
  ∧ (get_similar_ddl_statements dtable projectId queryEmbedding k
      = ((lexRanked (scoredDdlStatements dtable projectId queryEmbedding)).take k).map
          (fun p => p.2.2))
  ∧ (List.Perm (lexRanked (scoredDdlStatements dtable projectId queryEmbedding))
      (scoredDdlStatements dtable projectId queryEmbedding).enum)
  ∧ ((lexRanked (scoredDdlStatements dtable projectId queryEmbedding)).Pairwise
      (fun a b => List.enumLE descBySim a b = true))
  ∧ (∀ l, List.Perm l (scoredDdlStatements dtable projectId queryEmbedding).enum →
      l.Pairwise (fun a b => List.enumLE descBySim a b = true) →
      l = lexRanked (scoredDdlStatements dtable projectId queryEmbedding))
  ∧ ((scoredDdlStatements dtable projectId queryEmbedding).length ≤ k →
      List.Perm (get_similar_ddl_statements dtable projectId queryEmbedding k)
        ((scoredDdlStatements dtable projectId queryEmbedding).map (·.2))) := by
  refine ⟨?_, ?_, ?_, ?_, ?_, ?_, ?_, ?_, ?_, ?_, ?_, ?_⟩
  · rw [get_similar_sql_queries_eq_rankTop]
    exact rankTop_length _ _
  · rw [get_similar_sql_queries_eq_rankTop]
    exact rankTop_eq_lexRanked _ _
  · exact lexRanked_perm _
  · exact lexRanked_sorted _
  · exact fun l hp hs => lexRanked_unique _ l hp hs
  · intro hlen
    rw [get_similar_sql_queries_eq_rankTop]
    exact rankTop_perm_of_le _ _ hlen
  · rw [get_similar_ddl_statements_eq_rankTop]
    exact rankTop_length _ _
  · rw [get_similar_ddl_statements_eq_rankTop]
    exact rankTop_eq_lexRanked _ _
  · exact lexRanked_perm _
  · exact lexRanked_sorted _
  · exact fun l hp hs => lexRanked_unique _ l hp hs
  · intro hlen
    rw [get_similar_ddl_statements_eq_rankTop]
    exact rankTop_perm_of_le _ _ hlen

/-- Witness for `C2_similarity_search_top_k` on a two-record store with
nonzero embeddings. -/
theorem C2_similarity_search_top_k_witness :
    ((get_similar_sql_queries
        [⟨0, 7, "total sales", "SELECT SUM(amount) FROM sales", [1, 0]⟩,
         ⟨1, 7, "sales by product", "SELECT product FROM sales", [0, 1]⟩] 7 [1, 0] 1).length
      = min (scoredSqlQueries
        [⟨0, 7, "total sales", "SELECT SUM(amount) FROM sales", [1, 0]⟩,
         ⟨1, 7, "sales by product", "SELECT product FROM sales", [0, 1]⟩] 7 [1, 0]).length 1)
  ∧ ((get_similar_sql_queries
        [⟨0, 7, "total sales", "SELECT SUM(amount) FROM sales", [1, 0]⟩,
         ⟨1, 7, "sales by product", "SELECT product FROM sales", [0, 1]⟩] 7 [1, 0] 1)
      = ((lexRanked (scoredSqlQueries
        [⟨0, 7, "total sales", "SELECT SUM(amount) FROM sales", [1, 0]⟩,
         ⟨1, 7, "sales by product", "SELECT product FROM sales", [0, 1]⟩] 7 [1, 0])).take 1).map
          (fun p => p.2.2))
  ∧ (List.Perm (lexRanked (scoredSqlQueries
        [⟨0, 7, "total sales", "SELECT SUM(amount) FROM sales", [1, 0]⟩,
         ⟨1, 7, "sales by product", "SELECT product FROM sales", [0, 1]⟩] 7 [1, 0]))
      (scoredSqlQueries
        [⟨0, 7, "total sales", "SELECT SUM(amount) FROM sales", [1, 0]⟩,
         ⟨1, 7, "sales by product", "SELECT product FROM sales", [0, 1]⟩] 7 [1, 0]).enum)
  ∧ ((lexRanked (scoredSqlQueries
        [⟨0, 7, "total sales", "SELECT SUM(amount) FROM sales", [1, 0]⟩,
         ⟨1, 7, "sales by product", "SELECT product FROM sales", [0, 1]⟩] 7 [1, 0])).Pairwise
      (fun a b => List.enumLE descBySim a b = true))
  ∧ (∀ l, List.Perm l (scoredSqlQueries
        [⟨0, 7, "total sales", "SELECT SUM(amount) FROM sales", [1, 0]⟩,
         ⟨1, 7, "sales by product", "SELECT product FROM sales", [0, 1]⟩] 7 [1, 0]).enum →
      l.Pairwise (fun a b => List.enumLE descBySim a b = true) →
      l = lexRanked (scoredSqlQueries
        [⟨0, 7, "total sales", "SELECT SUM(amount) FROM sales", [1, 0]⟩,
         ⟨1, 7, "sales by product", "SELECT product FROM sales", [0, 1]⟩] 7 [1, 0]))
  ∧ ((scoredSqlQueries
        [⟨0, 7, "total sales", "SELECT SUM(amount) FROM sales", [1, 0]⟩,
         ⟨1, 7, "sales by product", "SELECT product FROM sales", [0, 1]⟩] 7 [1, 0]).length ≤ 1 →
      List.Perm (get_similar_sql_queries
        [⟨0, 7, "total sales", "SELECT SUM(amount) FROM sales", [1, 0]⟩,
         ⟨1, 7, "sales by product", "SELECT product FROM sales", [0, 1]⟩] 7 [1, 0] 1)
        ((scoredSqlQueries
        [⟨0, 7, "total sales", "SELECT SUM(amount) FROM sales", [1, 0]⟩,
         ⟨1, 7, "sales by product", "SELECT product FROM sales", [0, 1]⟩] 7 [1, 0]).map (·.2)))
  ∧ ((get_similar_ddl_statements
        [⟨2, 7, "CREATE TABLE sales (id INT)", [1, 1]⟩] 7 [1, 0] 1).length
      = min (scoredDdlStatements
        [⟨2, 7, "CREATE TABLE sales (id INT)", [1, 1]⟩] 7 [1, 0]).length 1)
  ∧ ((get_similar_ddl_statements
        [⟨2, 7, "CREATE TABLE sales (id INT)", [1, 1]⟩] 7 [1, 0] 1)
      = ((lexRanked (scoredDdlStatements
        [⟨2, 7, "CREATE TABLE sales (id INT)", [1, 1]⟩] 7 [1, 0])).take 1).map
          (fun p => p.2.2))
  ∧ (List.Perm (lexRanked (scoredDdlStatements
        [⟨2, 7, "CREATE TABLE sales (id INT)", [1, 1]⟩] 7 [1, 0]))
      (scoredDdlStatements [⟨2, 7, "CREATE TABLE sales (id INT)", [1, 1]⟩] 7 [1, 0]).enum)
  ∧ ((lexRanked (scoredDdlStatements
        [⟨2, 7, "CREATE TABLE sales (id INT)", [1, 1]⟩] 7 [1, 0])).Pairwise
      (fun a b => List.enumLE descBySim a b = true))
  ∧ (∀ l, List.Perm l
        (scoredDdlStatements [⟨2, 7, "CREATE TABLE sales (id INT)", [1, 1]⟩] 7 [1, 0]).enum →
      l.Pairwise (fun a b => List.enumLE descBySim a b = true) →
      l = lexRanked (scoredDdlStatements
        [⟨2, 7, "CREATE TABLE sales (id INT)", [1, 1]⟩] 7 [1, 0]))
  ∧ ((scoredDdlStatements [⟨2, 7, "CREATE TABLE sales (id INT)", [1, 1]⟩] 7 [1, 0]).length ≤ 1 →
      List.Perm (get_similar_ddl_statements
        [⟨2, 7, "CREATE TABLE sales (id INT)", [1, 1]⟩] 7 [1, 0] 1)
        ((scoredDdlStatements
          [⟨2, 7, "CREATE TABLE sales (id INT)", [1, 1]⟩] 7 [1, 0]).map (·.2))) :=
  C2_similarity_search_top_k
    [⟨0, 7, "total sales", "SELECT SUM(amount) FROM sales", [1, 0]⟩,
     ⟨1, 7, "sales by product", "SELECT product FROM sales", [0, 1]⟩]
    [⟨2, 7, "CREATE TABLE sales (id INT)", [1, 1]⟩] 7 [1, 0] 1
    (by
      intro p hp
      simp [scoredSqlQueries, cosine_similarity, SimScore.isNaN, dotQ, normSq] at hp
      rcases hp with h | h <;> simp [h, SimScore.isNaN])
    (by
      intro p hp
      simp [scoredDdlStatements, cosine_similarity, SimScore.isNaN, dotQ, normSq] at hp
      simp [hp, SimScore.isNaN])

/-! ## C3 — project isolation -/

/-- C3: similarity lookups scoped to a project A return only records of
project A, in both backends.  For the Postgres store the returned
question/SQL dicts carry `project_id = A` (hence never B for `B ≠ A`),
and every returned DDL string is the DDL text of a record of project A.
For the Chroma store, provided every entry's document `project_id`
field agrees with its `where`-filter metadata (an invariant that
`add_question_sql` establishes and preserves, last conjunct), a query
scoped to `pA` returns only documents with `project_id = pA` (hence
never `pB ≠ pA`). -/
theorem C3_project_isolation (table : List SQLQueryRec) (dtable : List DDLRec)
    (A B : Nat) (queryEmbedding : List ℚ) (n : Nat) (emb : String → List ℚ)
    (col : List ChromaSqlEntry) (question : String) (nc : Nat) (pA pB : String)
    (hAB : A ≠ B) (hPB : pA ≠ pB)
    (hinv : ∀ e ∈ col, e.docProjectId = e.metaProjectId) :
    (∀ d ∈ get_similar_sql_queries table A queryEmbedding n,
      d.projectId = A ∧ d.projectId ≠ B)
  ∧ (∀ d ∈ get_similar_ddl_statements dtable A queryEmbedding n,
      ∃ r ∈ dtable, r.projectId = A ∧ r.ddl = d)
  ∧ (∀ d ∈ chroma_get_similar_question_sql emb col question nc (some pA),
      d.projectId = some pA ∧ d.projectId ≠ some pB)
  ∧ (∀ (q s : String) (pid : Option String) (colQ : List ChromaSqlEntry),
      (∀ e ∈ colQ, e.docProjectId = e.metaProjectId) →
      ∀ e ∈ (chroma_add_question_sql emb q s pid colQ).2,
        e.docProjectId = e.metaProjectId) := by
  refine ⟨?_, ?_, ?_, ?_⟩
  · intro d hd'
    rw [get_similar_sql_queries_eq_rankTop] at hd'
    obtain ⟨p, hp, rfl⟩ := rankTop_mem _ _ _ hd'
    unfold scoredSqlQueries at hp
    obtain ⟨r, hr, rfl⟩ := List.mem_map.mp hp
    obtain ⟨-, hrA⟩ := List.mem_filter.mp hr
    have : r.projectId = A := by simpa using hrA
    refine ⟨this, ?_⟩
    simpa [SQLQueryRec.payload, this] using hAB
  · intro d hd'
    rw [get_similar_ddl_statements_eq_rankTop] at hd'
    obtain ⟨p, hp, rfl⟩ := rankTop_mem _ _ _ hd'
    unfold scoredDdlStatements at hp
    obtain ⟨r, hr, rfl⟩ := List.mem_map.mp hp
    obtain ⟨hrd, hrA⟩ := List.mem_filter.mp hr
    exact ⟨r, hrd, by simpa using hrA, rfl⟩
  · intro d hd'
    simp only [chroma_get_similar_question_sql] at hd'
    obtain ⟨e, he, rfl⟩ := List.mem_map.mp hd'
    have he' := List.mem_mergeSort.mp (List.mem_of_mem_take he)
    obtain ⟨hec, heA⟩ := List.mem_filter.mp he'
    have hmeta : e.metaProjectId = some pA := by simpa using heA
    have hdoc : e.docProjectId = some pA := (hinv e hec).trans hmeta
    refine ⟨hdoc, ?_⟩
    rw [hdoc]
    intro hcontra
    exact hPB (Option.some.inj hcontra)
  · intro q s pid colQ hinvQ e he
    cases hdq : deterministic_uuid (questionSqlJson q s pid) with
    | none =>
      simp only [chroma_add_question_sql, hdq] at he
      exact hinvQ e he
    | some h =>
      simp only [chroma_add_question_sql, hdq, chromaAddSqlEntry] at he
      split at he
      · exact hinvQ e he
      · rcases List.mem_append.mp he with hm | hm
        · exact hinvQ e hm
        · simp only [List.mem_singleton] at hm
          subst hm
          rfl

/-- Witness for `C3_project_isolation` with two distinct projects in
each backend. -/
theorem C3_project_isolation_witness :
    (∀ d ∈ get_similar_sql_queries
        [⟨0, 7, "total sales", "SELECT SUM(amount) FROM sales", [1]⟩,
         ⟨1, 8, "users", "SELECT COUNT(id) FROM users", [1]⟩] 7 [1] 10,
      d.projectId = 7 ∧ d.projectId ≠ 8)
  ∧ (∀ d ∈ get_similar_ddl_statements
        [⟨2, 7, "CREATE TABLE sales (id INT)", [1]⟩,
         ⟨3, 8, "CREATE TABLE users (id INT)", [1]⟩] 7 [1] 10,
      ∃ r ∈ [(⟨2, 7, "CREATE TABLE sales (id INT)", [1]⟩ : DDLRec),
             ⟨3, 8, "CREATE TABLE users (id INT)", [1]⟩],
        r.projectId = 7 ∧ r.ddl = d)
  ∧ (∀ d ∈ chroma_get_similar_question_sql (fun _ => [1])
        [⟨"i1-sql", "total sales", "SELECT 1", some "7", [1], some "7"⟩,
         ⟨"i2-sql", "users", "SELECT 2", some "8", [1], some "8"⟩] "total sales" 10 (some "7"),
      d.projectId = some "7" ∧ d.projectId ≠ some "8")
  ∧ (∀ (q s : String) (pid : Option String) (colQ : List ChromaSqlEntry),
      (∀ e ∈ colQ, e.docProjectId = e.metaProjectId) →
      ∀ e ∈ (chroma_add_question_sql (fun _ => [1]) q s pid colQ).2,
        e.docProjectId = e.metaProjectId) :=
  C3_project_isolation
    [⟨0, 7, "total sales", "SELECT SUM(amount) FROM sales", [1]⟩,
     ⟨1, 8, "users", "SELECT COUNT(id) FROM users", [1]⟩]
    [⟨2, 7, "CREATE TABLE sales (id INT)", [1]⟩,
     ⟨3, 8, "CREATE TABLE users (id INT)", [1]⟩]
    7 8 [1] 10 (fun _ => [1])
    [⟨"i1-sql", "total sales", "SELECT 1", some "7", [1], some "7"⟩,
     ⟨"i2-sql", "users", "SELECT 2", some "8", [1], some "8"⟩]
    "total sales" 10 "7" "8" (by decide) (by decide) (by decide)

/-! ## C5 — embedding migration -/

/-- C5 counterexample: a two-record DDL collection where re-embedding the
second record fails.  `migrate_embeddings` has already deleted the old
collection, and the per-CATEGORY `except` aborts the restore loop at the
failure, so the failing record is lost entirely (it does not keep its
old embedding), the store ends with 1 of 2 records, the printed restored
count is 0 (the category's count is only added after a fully successful
loop), and the function still returns `True`. -/
theorem C5_migration_counterexample :
    ((migrate_embeddings
        (fun d => if d = "CREATE TABLE b (y INT)" then none else some [2])
        (⟨[], [⟨"id1", "CREATE TABLE a (x INT)", [1], some "7"⟩,
               ⟨"id2", "CREATE TABLE b (y INT)", [1], some "7"⟩], []⟩ : ChromaStore)).1.ddl
      = [⟨"id1", "CREATE TABLE a (x INT)", [2], some "7"⟩])
  ∧ ((migrate_embeddings
        (fun d => if d = "CREATE TABLE b (y INT)" then none else some [2])
        (⟨[], [⟨"id1", "CREATE TABLE a (x INT)", [1], some "7"⟩,
               ⟨"id2", "CREATE TABLE b (y INT)", [1], some "7"⟩], []⟩ : ChromaStore)).1.ddl.length
      = 1)
  ∧ (((migrate_embeddings
        (fun d => if d = "CREATE TABLE b (y INT)" then none else some [2])
        (⟨[], [⟨"id1", "CREATE TABLE a (x INT)", [1], some "7"⟩,
               ⟨"id2", "CREATE TABLE b (y INT)", [1], some "7"⟩], []⟩ : ChromaStore)).1.ddl.filter
          (fun e => e.id == "id2")) = [])
  ∧ ((migrate_embeddings
        (fun d => if d = "CREATE TABLE b (y INT)" then none else some [2])
        (⟨[], [⟨"id1", "CREATE TABLE a (x INT)", [1], some "7"⟩,
               ⟨"id2", "CREATE TABLE b (y INT)", [1], some "7"⟩], []⟩ : ChromaStore)).2.1 = 0)
  ∧ ((migrate_embeddings
        (fun d => if d = "CREATE TABLE b (y INT)" then none else some [2])
        (⟨[], [⟨"id1", "CREATE TABLE a (x INT)", [1], some "7"⟩,
               ⟨"id2", "CREATE TABLE b (y INT)", [1], some "7"⟩], []⟩ : ChromaStore)).2.2
      = true) := by
  refine ⟨by decide, by decide, by decide, by decide, by decide⟩

/-- Every record the restore loop puts into the fresh collection is
either carried over from `acc` or is a backed-up record whose
re-embedding succeeded, with the new embedding substituted. -/
theorem restoreCat_mem_strong (newEmb : String → Option (List ℚ)) (l : List ChromaEntry) :
    ∀ acc, ∀ x ∈ (restoreCat newEmb l acc).1,
      x ∈ acc ∨ ∃ e ∈ l, ∃ v, newEmb e.document = some v ∧ x = { e with embedding := v } := by
  induction l with
  | nil =>
    intro acc x hx
    exact Or.inl (by simpa [restoreCat] using hx)
  | cons e rest ih =>
    intro acc x hx
    simp only [restoreCat] at hx
    cases hv : newEmb e.document with
    | none =>
      rw [hv] at hx
      exact Or.inl hx
    | some v =>
      rw [hv] at hx
      rcases ih _ x hx with hacc | ⟨e', he', v', hv', hx'⟩
      · unfold chromaAddEntry at hacc
        split at hacc
        · exact Or.inl hacc
        · rcases List.mem_append.mp hacc with hm | hm
          · exact Or.inl hm
          · simp only [List.mem_singleton] at hm
            exact Or.inr ⟨e, List.mem_cons_self _ _, v, hv, hm⟩
      · exact Or.inr ⟨e', List.mem_cons_of_mem _ he', v', hv', hx'⟩

/-- When re-embedding succeeds on every backed-up record (and the backup
ids are distinct, as chroma guarantees), the restore loop rebuilds the
whole collection in order, substituting the new embeddings. -/
theorem restoreCat_success (newEmb : String → Option (List ℚ)) (l : List ChromaEntry) :
    ∀ acc, (∀ e ∈ l, (newEmb e.document).isSome) →
    (l.map (fun e => e.id)).Nodup →
    (∀ e ∈ l, ∀ a ∈ acc, a.id ≠ e.id) →
    restoreCat newEmb l acc
      = (acc ++ l.map (fun e => { e with embedding := (newEmb e.document).getD [] }), true) := by
  induction l with
  | nil =>
    intro acc _ _ _
    simp [restoreCat]
  | cons e rest ih =>
    intro acc hsome hnd hfresh
    obtain ⟨v, hv⟩ := Option.isSome_iff_exists.mp (hsome e (List.mem_cons_self _ _))
    simp only [restoreCat, hv]
    have hany : acc.any (fun x => x.id == e.id) = false := by
      rw [List.any_eq_false]
      intro a ha
      simpa using hfresh e (List.mem_cons_self _ _) a ha
    have hstep : chromaAddEntry acc { e with embedding := v }
        = acc ++ [{ e with embedding := v }] := by
      unfold chromaAddEntry
      simp [hany]
    rw [hstep]
    have hnd' : e.id ∉ rest.map (fun e => e.id) ∧ (rest.map (fun e => e.id)).Nodup := by
      simpa [List.nodup_cons] using hnd
    have hfresh' : ∀ e' ∈ rest, ∀ a ∈ acc ++ [{ e with embedding := v }], a.id ≠ e'.id := by
      intro e' he' a ha
      rcases List.mem_append.mp ha with hm | hm
      · exact hfresh e' (List.mem_cons_of_mem _ he') a hm
      · simp only [List.mem_singleton] at hm
        subst hm
        show e.id ≠ e'.id
        intro hcontra
        exact hnd'.1 (by
          rw [hcontra]
          exact List.mem_map.mpr ⟨e', he', rfl⟩)
    have hrec := ih (acc ++ [{ e with embedding := v }])
      (fun e' he' => hsome e' (List.mem_cons_of_mem _ he')) hnd'.2 hfresh'
    rw [hrec]
    simp [hv]

/-- C5 (amended): when the new provider succeeds on every record,
migration rebuilds every collection with the same ids, documents and
metadata, each record carrying its freshly generated embedding (so the
count is preserved and, if the provider's output dimension is `D`, every
stored embedding has dimension `D`), and the reported restored count is
the total; returns `True`.  But when re-embedding an individual record
fails, that record is dropped from the store entirely — it does NOT keep
its old embedding (the old collection was already deleted), refuting the
claim's partial-failure clause; the last conjunct shows no record with
the failing record's id survives. -/
theorem C5_migration_amended (newEmb : String → Option (List ℚ)) (st : ChromaStore) (D : Nat)
    (hnd1 : (st.sql.map (fun e => e.id)).Nodup)
    (hnd2 : (st.ddl.map (fun e => e.id)).Nodup)
    (hnd3 : (st.documentation.map (fun e => e.id)).Nodup) :
    ((∀ e ∈ st.sql, (newEmb e.document).isSome) →
      (migrate_embeddings newEmb st).1.sql
        = st.sql.map (fun e => { e with embedding := (newEmb e.document).getD [] }))
  ∧ ((∀ e ∈ st.ddl, (newEmb e.document).isSome) →
      (migrate_embeddings newEmb st).1.ddl
        = st.ddl.map (fun e => { e with embedding := (newEmb e.document).getD [] }))
  ∧ ((∀ e ∈ st.documentation, (newEmb e.document).isSome) →
      (migrate_embeddings newEmb st).1.documentation
        = st.documentation.map (fun e => { e with embedding := (newEmb e.document).getD [] }))
  ∧ ((∀ e ∈ st.sql, (newEmb e.document).isSome) →
      (∀ e ∈ st.ddl, (newEmb e.document).isSome) →
      (∀ e ∈ st.documentation, (newEmb e.document).isSome) →
      (migrate_embeddings newEmb st).2.1
        = st.sql.length + st.ddl.length + st.documentation.length
      ∧ (migrate_embeddings newEmb st).1.sql.length = st.sql.length
      ∧ (migrate_embeddings newEmb st).1.ddl.length = st.ddl.length
      ∧ (migrate_embeddings newEmb st).1.documentation.length = st.documentation.length)
  ∧ ((∀ d v, newEmb d = some v → v.length = D) →
      ∀ e ∈ (migrate_embeddings newEmb st).1.ddl, e.embedding.length = D)
  ∧ ((migrate_embeddings newEmb st).2.2 = true)
  ∧ (∀ e ∈ st.ddl, newEmb e.document = none →
      ∀ x ∈ (migrate_embeddings newEmb st).1.ddl, x.id ≠ e.id) := by
  have hsql : ∀ (h : ∀ e ∈ st.sql, (newEmb e.document).isSome),
      restoreCat newEmb st.sql []
        = (st.sql.map (fun e => { e with embedding := (newEmb e.document).getD [] }), true) :=
    fun h => by
      rw [restoreCat_success newEmb st.sql [] h hnd1 (by intro e _ a ha; cases ha)]
      simp
  have hddl : ∀ (h : ∀ e ∈ st.ddl, (newEmb e.document).isSome),
      restoreCat newEmb st.ddl []
        = (st.ddl.map (fun e => { e with embedding := (newEmb e.document).getD [] }), true) :=
    fun h => by
      rw [restoreCat_success newEmb st.ddl [] h hnd2 (by intro e _ a ha; cases ha)]
      simp
  have hdoc : ∀ (h : ∀ e ∈ st.documentation, (newEmb e.document).isSome),
      restoreCat newEmb st.documentation []
        = (st.documentation.map
            (fun e => { e with embedding := (newEmb e.document).getD [] }), true) :=
    fun h => by
      rw [restoreCat_success newEmb st.documentation [] h hnd3 (by intro e _ a ha; cases ha)]
      simp
  refine ⟨?_, ?_, ?_, ?_, ?_, rfl, ?_⟩
  · intro h
    simp only [migrate_embeddings, hsql h]
  · intro h
    simp only [migrate_embeddings, hddl h]
  · intro h
    simp only [migrate_embeddings, hdoc h]
  · intro h1 h2 h3
    simp only [migrate_embeddings, hsql h1, hddl h2, hdoc h3]
    simp [List.length_map]
  · intro hdim e he
    have := restoreCat_mem_strong newEmb st.ddl [] e (by
      simpa only [migrate_embeddings] using he)
    rcases this with hm | ⟨e', _, v, hv, rfl⟩
    · cases hm
    · simpa using hdim e'.document v hv
  · intro e he hnone x hx
    have := restoreCat_mem_strong newEmb st.ddl [] x (by
      simpa only [migrate_embeddings] using hx)
    rcases this with hm | ⟨e', he', v, hv, rfl⟩
    · cases hm
    · show e'.id ≠ e.id
      intro hcontra
      have : e' = e := List.inj_on_of_nodup_map hnd2 he' he hcontra
      rw [this, hnone] at hv
      cases hv

/-- Witness for `C5_migration_amended` on a one-record-per-category
store with an everywhere-successful dimension-2 provider: the migrated
sql collection is the original with embeddings regenerated. -/
theorem C5_migration_amended_witness :
    (migrate_embeddings (fun _ => some [2, 3])
        (⟨[⟨"s1", "q1", [1], some "7"⟩], [⟨"d1", "CREATE", [1], some "7"⟩],
          [⟨"doc1", "info", [1], some "7"⟩]⟩ : ChromaStore)).1.sql
      = (⟨[⟨"s1", "q1", [1], some "7"⟩], [⟨"d1", "CREATE", [1], some "7"⟩],
          [⟨"doc1", "info", [1], some "7"⟩]⟩ : ChromaStore).sql.map
          (fun e => { e with
            embedding := ((fun _ => some [2, 3] : String → Option (List ℚ))
              e.document).getD [] }) :=
  (C5_migration_amended (fun _ => some [2, 3])
    (⟨[⟨"s1", "q1", [1], some "7"⟩], [⟨"d1", "CREATE", [1], some "7"⟩],
      [⟨"doc1", "info", [1], some "7"⟩]⟩ : ChromaStore) 2
    (by decide) (by decide) (by decide)).1 (fun e _ => rfl)
